import Mathlib

set_option maxRecDepth 65536

/-!
Verification development for the VA KnowVA manual scraper
(`scrape_va_manual.py`).

The development shallowly embeds the scraper's core logic:

* HTML documents are modelled as already-parsed DOM forests (`Node`);
  HTML parsing itself is an external collaborator (BeautifulSoup), so the
  embedded functions operate on the parsed tree exactly as the Python code
  operates on `soup` objects.  Serialising a selected element to a string
  and re-parsing it (as `get_html_from_selector` does) is the identity on
  the tree, so selection returns the node itself.
* `urllib.parse.urlparse` / `urljoin` are modelled concretely on strings
  for the scheme/netloc/absolute-path/relative-path cases the scraper
  exercises.
* The page fetcher (`fetch_html`) and the Markdown renderer
  (`markdownify`) are external collaborators; they are modelled as
  components of a `ScrapeEnv` record over which theorems quantify.
* `scrape_recursive` is embedded as a function over an explicit
  `ScrapeState` (visited set + aggregated parts), mirroring the Python
  statement order; the Python `set` of visited URLs is modelled as a list
  with membership, and the `list(set(...))` returned by
  `extract_links_from_html` is modelled as first-seen-order deduplication.
* Python string primitives (`lower`, `strip`, `startswith`, `in`,
  `split`) are implemented over character lists so that every definition
  evaluates inside the kernel; `lower`/`strip` cover the ASCII range the
  scraper's URLs and markers use.
-/

/-! ## Python string primitives -/

/-- `startsWithList s p` : the char list `s` starts with the char list `p`
(Python `str.startswith` on explicit lists). -/
def startsWithList : List Char → List Char → Bool
  | _, [] => true
  | [], _ :: _ => false
  | c :: cs, p :: ps => c = p && startsWithList cs ps

/-- `containsSubList p s` : the char list `p` occurs as a contiguous
sublist of `s` (Python `p in s`). -/
def containsSubList (pat : List Char) : List Char → Bool
  | [] => pat.isEmpty
  | c :: rest => startsWithList (c :: rest) pat || containsSubList pat rest

/-- Python's substring test `pat in s`. -/
def containsSub (s pat : String) : Bool :=
  containsSubList pat.toList s.toList

/-- Python `str.lower` (ASCII). -/
def pyLower (s : String) : String :=
  String.mk (s.toList.map Char.toLower)

/-- Python `str.startswith`. -/
def pyStartsWith (s pre : String) : Bool :=
  startsWithList s.toList pre.toList

/-- Python `str.strip`: drop leading and trailing whitespace. -/
def pyStrip (s : String) : String :=
  String.mk
    (((s.toList.dropWhile Char.isWhitespace).reverse.dropWhile
        Char.isWhitespace).reverse)

/-- Split a char list at every character satisfying `p`; the pieces keep
their original order and may be empty. -/
def splitAux (p : Char → Bool) (cur : List Char) : List Char → List (List Char)
  | [] => [cur.reverse]
  | c :: rest =>
    if p c then cur.reverse :: splitAux p [] rest
    else splitAux p (c :: cur) rest

/-- Python `str.split(sep)` for a one-character separator, and the
whitespace split used for `class` attributes. -/
def splitPred (p : Char → Bool) (s : String) : List String :=
  (splitAux p [] s.toList).map String.mk

/-- Python `sep.join(parts)`. -/
def joinParts (sep : String) : List String → String
  | [] => ""
  | [p] => p
  | p :: q :: rest => p ++ sep ++ joinParts sep (q :: rest)

/-! ## `urllib.parse` model -/

/-- Characters allowed in a URL scheme after the first letter
(`urllib.parse.scheme_chars`). -/
def isSchemeChar (c : Char) : Bool :=
  c.isAlpha || c.isDigit || c = '+' || c = '-' || c = '.'

/-- Scan for the `scheme:` prefix of a URL: accumulate scheme characters
until a colon; fail on any non-scheme character. -/
def schemeSplitAux (acc : List Char) : List Char → Option (List Char × List Char)
  | [] => none
  | c :: rest =>
    if c = ':' then some (acc.reverse, rest)
    else if isSchemeChar c then schemeSplitAux (c :: acc) rest
    else none

/-- Split a URL into its (lower-cased) scheme and the remainder after the
colon, as `urllib.parse.urlsplit` does; the scheme must begin with a
letter.  Returns `("", s)` when there is no scheme. -/
def splitScheme (s : String) : String × String :=
  match s.toList with
  | [] => ("", s)
  | c :: rest =>
    if c.isAlpha then
      match schemeSplitAux [c] rest with
      | some (sch, rem) => (String.mk (sch.map Char.toLower), String.mk rem)
      | none => ("", s)
    else ("", s)

/-- Scan the network location: everything up to the first `/`, `?` or `#`. -/
def takeNetlocAux (acc : List Char) : List Char → List Char × List Char
  | [] => (acc.reverse, [])
  | c :: rest =>
    if c = '/' || c = '?' || c = '#' then (acc.reverse, c :: rest)
    else takeNetlocAux (c :: acc) rest

/-- The components of a URL the scraper inspects: lower-cased scheme,
network location, and the rest (path, query and fragment, kept as one
string since the scraper never splits them further). -/
structure ParsedUrl where
  scheme : String
  netloc : String
  rest : String
deriving DecidableEq, Repr

/-- Model of `urllib.parse.urlparse` restricted to the fields the scraper
reads (`scheme`, `netloc`). -/
def urlparse (s : String) : ParsedUrl :=
  let (sch, rem) := splitScheme s
  match rem.toList with
  | '/' :: '/' :: t =>
    let (nl, r) := takeNetlocAux [] t
    ⟨sch, String.mk nl, String.mk r⟩
  | _ => ⟨sch, "", rem⟩

/-- Schemes that allow relative resolution (`urllib.parse.uses_relative`,
restricted to the entries relevant here). -/
def uses_relative : List String :=
  ["", "ftp", "http", "gopher", "nntp", "imap", "wais", "file", "https",
   "shttp", "mms", "prospero", "rtsp", "rtspu", "sftp", "svn", "ws", "wss"]

/-- Schemes that use a network location (`urllib.parse.uses_netloc`,
restricted to the entries relevant here). -/
def uses_netloc : List String :=
  ["", "ftp", "http", "gopher", "nntp", "telnet", "imap", "wais", "file",
   "mms", "https", "shttp", "snews", "prospero", "rtsp", "rtspu", "rsync",
   "svn", "svn+ssh", "sftp", "nfs", "git", "git+ssh", "ws", "wss"]

/-- Reassemble scheme, netloc and remainder into a URL string. -/
def urlunparse3 (scheme netloc rest : String) : String :=
  (if scheme = "" then "" else scheme ++ ":")
    ++ (if netloc = "" then "" else "//" ++ netloc)
    ++ rest

/-- Drop `.` segments and resolve `..` segments, as the final loop of
`urllib.parse.urljoin` does. -/
def resolveSegs (segs : List String) : List String :=
  let r := segs.foldl
    (fun acc seg =>
      if seg = ".." then acc.dropLast
      else if seg = "." then acc
      else acc ++ [seg]) []
  if segs.getLast? = some "." || segs.getLast? = some ".." then r ++ [""] else r

/-- Merge a relative path `upath` onto the base path `bpath`
(the segment-merging part of `urllib.parse.urljoin`). -/
def mergeRelPath (bpath upath : String) : String :=
  let base_parts := splitPred (· = '/') bpath
  let base_parts :=
    if base_parts.getLast? = some "" then base_parts else base_parts.dropLast
  let segments := base_parts ++ splitPred (· = '/') upath
  let p := joinParts "/" (resolveSegs segments)
  if p = "" then "/" else p

/-- Model of `urllib.parse.urljoin` for the cases the scraper exercises:
absolute references, scheme-relative references, absolute paths and
simple relative paths (query-only and fragment-only references are folded
into the path). -/
def urljoin (base url : String) : String :=
  if base = "" then url
  else if url = "" then base
  else
    let b := urlparse base
    let u := urlparse url
    let uscheme := if u.scheme = "" then b.scheme else u.scheme
    if uscheme ≠ b.scheme ∨ ¬ uses_relative.contains uscheme then url
    else if uses_netloc.contains uscheme ∧ u.netloc ≠ "" then
      urlunparse3 uscheme u.netloc u.rest
    else if u.rest = "" then urlunparse3 uscheme b.netloc b.rest
    else if pyStartsWith u.rest "/" then urlunparse3 uscheme b.netloc u.rest
    else urlunparse3 uscheme b.netloc (mergeRelPath b.rest u.rest)


/-! ## DOM model

The scraper parses HTML with BeautifulSoup and inspects it through CSS
selectors.  A parsed document is a forest of nodes; each element node
carries its tag name, its attributes, and its children.  The forest is a
mutual inductive (rather than `List Node`) so that every traversal is
structurally recursive and evaluates inside the kernel. -/

mutual
/-- A parsed HTML node: an element with tag, attributes and children, or
a text node. -/
inductive Node where
  | elem (tag : String) (attrs : List (String × String)) (children : NodeForest)
  | text (s : String)
/-- A forest of sibling nodes in document order. -/
inductive NodeForest where
  | nil
  | cons (n : Node) (rest : NodeForest)
end

/-- Build a forest from a list of nodes. -/
def NodeForest.ofList : List Node → NodeForest
  | [] => .nil
  | n :: rest => .cons n (NodeForest.ofList rest)

/-- A one-node forest: the document obtained by re-parsing `str(node)`. -/
def NodeForest.one (n : Node) : NodeForest := .cons n .nil

/-- Element constructor taking the children as a list. -/
def Node.el (tag : String) (attrs : List (String × String))
    (children : List Node) : Node :=
  .elem tag attrs (.ofList children)

/-- Text-node constructor. -/
def Node.tx (s : String) : Node := .text s

/-- Attribute lookup on an element (`tag['href']`, `tag.get('id')`). -/
def Node.getAttr : Node → String → Option String
  | .elem _ attrs _, name => (attrs.find? (fun p => p.1 = name)).map (·.2)
  | .text _, _ => none

/-- The children forest of a node (empty for text nodes). -/
def Node.childrenF : Node → NodeForest
  | .elem _ _ cs => cs
  | .text _ => .nil

/-- A simple CSS selector as used by the scraper: `tag#id`, `tag.class`,
or a bare tag name. -/
inductive SimpleSel where
  | tagId (tag idv : String)
  | tagCls (tag cls : String)
  | tagOnly (tag : String)

/-- Does a node match a simple selector?  Class attributes are split on
whitespace, as soupsieve does. -/
def matchesSimple (sel : SimpleSel) (n : Node) : Bool :=
  match sel, n with
  | .tagId t i, .elem tag _ _ =>
    tag = t && n.getAttr "id" = some i
  | .tagCls t c, .elem tag _ _ =>
    tag = t &&
      (match n.getAttr "class" with
       | some cls => (splitPred Char.isWhitespace cls).contains c
       | none => false)
  | .tagOnly t, .elem tag _ _ => tag = t
  | _, .text _ => false

/-- A selector expression as used by the scraper: a comma-group of simple
selectors, or a descendant combination of two simple selectors. -/
inductive Sel where
  | alts (ls : List SimpleSel)
  | desc (a b : SimpleSel)

/-- First node (document order / pre-order) in a forest matching one of
the simple selectors (`select_one` with a comma group). -/
def selectOneSimple (ls : List SimpleSel) : NodeForest → Option Node
  | .nil => none
  | .cons (.text _) rest => selectOneSimple ls rest
  | .cons (.elem t a cs) rest =>
    if ls.any (fun s => matchesSimple s (.elem t a cs)) then some (.elem t a cs)
    else
      match selectOneSimple ls cs with
      | some m => some m
      | none => selectOneSimple ls rest

/-- First node (document order) matching `b` that has a proper ancestor
within the searched forest matching `a` (`select_one` with a descendant
combinator). -/
def selectOneDesc (a b : SimpleSel) (under : Bool) : NodeForest → Option Node
  | .nil => none
  | .cons (.text _) rest => selectOneDesc a b under rest
  | .cons (.elem t at_ cs) rest =>
    if under && matchesSimple b (.elem t at_ cs) then some (.elem t at_ cs)
    else
      match selectOneDesc a b (under || matchesSimple a (.elem t at_ cs)) cs with
      | some m => some m
      | none => selectOneDesc a b under rest

/-- `select_one` on a forest. -/
def selectOne (sel : Sel) (forest : NodeForest) : Option Node :=
  match sel with
  | .alts ls => selectOneSimple ls forest
  | .desc a b => selectOneDesc a b false forest

/-- BeautifulSoup `find(tag)`: first element with the given tag name, in
document order. -/
def findTag (t : String) (forest : NodeForest) : Option Node :=
  selectOneSimple [.tagOnly t] forest

/-- BeautifulSoup `find_all('a', href=True)`: every anchor element
carrying an `href` attribute, in document order. -/
def findAllAnchorsWithHref : NodeForest → List Node
  | .nil => []
  | .cons (.text _) rest => findAllAnchorsWithHref rest
  | .cons (.elem t a cs) rest =>
    (if t = "a" && ((Node.elem t a cs).getAttr "href").isSome
     then [Node.elem t a cs] else [])
      ++ findAllAnchorsWithHref cs ++ findAllAnchorsWithHref rest

/-- `any(tag.stripped_strings)`: is there a text node in the forest whose
content is non-empty after stripping whitespace? -/
def hasStrippedText : NodeForest → Bool
  | .nil => false
  | .cons (.text s) rest => (pyStrip s ≠ "") || hasStrippedText rest
  | .cons (.elem _ _ cs) rest => hasStrippedText cs || hasStrippedText rest

example : containsSub "hello world" "lo w" = true := by decide
example : containsSub "hello" "xyz" = false := by decide
example : pyLower "Ab/C" = "ab/c" := by decide
example : urlparse "https://www.example.org/a/b?q=1" =
    ⟨"https", "www.example.org", "/a/b?q=1"⟩ := by decide
example : urljoin "https://a.org/x/y" "https://b.org/z" = "https://b.org/z" := by
  decide
example : urljoin "https://a.org/x/y" "/z" = "https://a.org/z" := by decide
example : urljoin "https://a.org/x/y" "z" = "https://a.org/x/z" := by decide
example : urljoin "" "u" = "u" := by decide

/-! ## Mock HTML definitions (`MOCK_*` templates and `DUMMY_*` URLs)

The templates are the parsed forms of the Python HTML template strings.
Whitespace-only text nodes between tags are omitted: the selectors match
on tags and attributes only, and `stripped_strings` discards them, so
they are invisible to every function of the scraper. -/

/-- `MOCK_ARTICLE_CONTENT_SNIPPET_TEMPLATE`: the article-content subtree
of a mock article page, parameterised by the page URL. -/
def MOCK_ARTICLE_CONTENT_SNIPPET (url : String) : Node :=
  .el "div" [("id", "eg-ss-article-content")]
    [.el "div" [("id", "article-body")]
      [.el "h1" [] [.tx ("Mocked Article: " ++ url)],
       .el "p" [] [.tx ("This is MOCK content. Original URL: " ++ url)],
       .el "p" []
         [.tx ("This content is used because the script is operating in a mode where pages beyond the initial one are mocked for testing/development, or a live fetch attempt for an article page failed.")]]]

/-- `MOCK_ARTICLE_HTML_TEMPLATE`: the parsed form of the mock article
page for `url`. -/
def MOCK_ARTICLE_HTML (url : String) : NodeForest :=
  .one
    (.el "html" []
      [.el "head" [] [.el "title" [] [.tx ("Mock Article for " ++ url)]],
       .el "body" []
         [.el "div" [("id", "eg-ss-view")] [MOCK_ARTICLE_CONTENT_SNIPPET url]]])

/-- `MOCK_DIRECTORY_LINKS_SNIPPET_TEMPLATE`: the `ul#sub-topics-list`
navigation block of a mock directory page, with its three links. -/
def MOCK_DIRECTORY_LINKS_SNIPPET (url l1 l2 l3 : String) : Node :=
  .el "ul" [("id", "sub-topics-list")]
    [.el "li" []
       [.el "a" [("href", l1)]
         [.tx ("Mock Article Link 1 (from " ++ url ++ ")")]],
     .el "li" []
       [.el "a" [("href", l2)]
         [.tx ("Mock Directory Link 2 (from " ++ url ++ ")")]],
     .el "li" []
       [.el "a" [("href", l3)]
         [.tx ("Mock Article Link 3 (from " ++ url ++ ")")]]]

/-- `MOCK_DIRECTORY_HTML_TEMPLATE`: the parsed form of the mock directory
page for `url` with child links `l1`, `l2`, `l3`. -/
def MOCK_DIRECTORY_HTML (url l1 l2 l3 : String) : NodeForest :=
  .one
    (.el "html" []
      [.el "head" [] [.el "title" [] [.tx ("Mock Directory for " ++ url)]],
       .el "body" []
         [.el "div" [("id", "eg-ss-view")]
           [.el "h1" [] [.tx ("Directory Page: " ++ url)],
            MOCK_DIRECTORY_LINKS_SNIPPET url l1 l2 l3]]])

/-- The live crawl target's domain (`target_live_domain` in
`extract_links_from_html`). -/
def target_live_domain : String := "www.knowva.ebenefits.va.gov"

/-- The common prefix of the three `DUMMY_*_URL_*_TEMPLATE` strings, up
to and including `portal/554400000001018/`. -/
def KNOWVA_PORTAL : String :=
  "https://" ++ target_live_domain ++
    "/system/templates/selfservice/va_ssnew/help/customer/locale/en-US/portal/554400000001018/"

/-- `DUMMY_ARTICLE_URL_1_TEMPLATE` instantiated at `depth`. -/
def DUMMY_ARTICLE_URL_1 (depth : Nat) : String :=
  KNOWVA_PORTAL ++ "article/mockarticle1_from_depth_" ++ toString depth ++
    "/Mock-Article-Page-1"

/-- `DUMMY_DIRECTORY_URL_2_TEMPLATE` instantiated at `depth`. -/
def DUMMY_DIRECTORY_URL_2 (depth : Nat) : String :=
  KNOWVA_PORTAL ++ "topic/mocktopic2_from_depth_" ++ toString depth ++
    "/Mock-Directory-Page-2"

/-- `DUMMY_ARTICLE_URL_3_TEMPLATE` instantiated at `depth`. -/
def DUMMY_ARTICLE_URL_3 (depth : Nat) : String :=
  KNOWVA_PORTAL ++ "article/mockarticle3_from_depth_" ++ toString depth ++
    "/Mock-Article-Page-3"

/-! ## Selector constants used by the scraper -/

/-- `'div#eg-ss-article-content'`. -/
def selArticleContainer : Sel := .alts [.tagId "div" "eg-ss-article-content"]

/-- `'div#article-body, div.article-body'`. -/
def selArticleBodyAlt : Sel :=
  .alts [.tagId "div" "article-body", .tagCls "div" "article-body"]

/-- `'div#eg-ss-view'`. -/
def selEgSsView : Sel := .alts [.tagId "div" "eg-ss-view"]

/-- `'ul#sub-topics-list'`. -/
def selSubTopics : Sel := .alts [.tagId "ul" "sub-topics-list"]

/-- `'div#eg-ss-topic-more-articles-list-custom ul.list-group'`. -/
def selMoreArticles : Sel :=
  .desc (.tagId "div" "eg-ss-topic-more-articles-list-custom")
    (.tagCls "ul" "list-group")

/-- `'div#article-body'` (the extraction selector in
`scrape_recursive`). -/
def selArticleBody : Sel := .alts [.tagId "div" "article-body"]

/-! ## `get_html_from_selector` and `is_article_page` -/

/-- `get_html_from_selector(html_string, selector_string)`: the first
element matching the selector, at document scope (BeautifulSoup
`soup.select_one`, which can also match a root element of the parsed
string).  An empty document yields `none`, as the `if not html_string`
guard does. -/
def get_html_from_selector (html : NodeForest) (sel : Sel) : Option Node :=
  selectOne sel html

/-- Rule 1 of the classifier, extracted for the statements below: the
first `div#eg-ss-article-content` container holds a
`div#article-body, div.article-body` element with at least one
non-whitespace string. -/
def article_body_signal (doc : NodeForest) : Bool :=
  match selectOne selArticleContainer doc with
  | some container =>
    match selectOne selArticleBodyAlt container.childrenF with
    | some body => hasStrippedText body.childrenF
    | none => false
  | none => false

/-- The context node for the directory checks: the first `div#eg-ss-view`
if present (searching its descendants), else the whole document. -/
def directory_context (doc : NodeForest) : NodeForest :=
  match selectOne selEgSsView doc with
  | some v => v.childrenF
  | none => doc

/-- Rule 2 signal: the context holds a `ul#sub-topics-list` with at least
one `li`. -/
def sub_topics_signal (doc : NodeForest) : Bool :=
  match selectOne selSubTopics (directory_context doc) with
  | some l => (findTag "li" l.childrenF).isSome
  | none => false

/-- Rule 3 signal: the context holds a
`div#eg-ss-topic-more-articles-list-custom ul.list-group` whose first
`li` contains an `a`. -/
def more_articles_signal (doc : NodeForest) : Bool :=
  match selectOne selMoreArticles (directory_context doc) with
  | some ul =>
    match findTag "li" ul.childrenF with
    | some li => (findTag "a" li.childrenF).isSome
    | none => false
  | none => false

/-- Rule 3 of `is_article_page` and the default; each branch of the
Python code returns `False`. -/
def is_article_page_more_articles (ctx : NodeForest) : Bool :=
  match selectOne selMoreArticles ctx with
  | some more_articles_list_ul =>
    match findTag "li" more_articles_list_ul.childrenF with
    | some li => if (findTag "a" li.childrenF).isSome then false else false
    | none => false
  | none => false

/-- The directory-shaped checks of `is_article_page` (rules 2 and 3 and
the default); each branch returns `false` (LISTING). -/
def is_article_page_directory_checks (doc : NodeForest) : Bool :=
  let ctx := directory_context doc
  match selectOne selSubTopics ctx with
  | some sub_topics_list =>
    if (findTag "li" sub_topics_list.childrenF).isSome then false
    else is_article_page_more_articles ctx
  | none => is_article_page_more_articles ctx

/-- `is_article_page(page_html_content)`: `true` iff the page is
classified as an article (CONTENT).  Mirrors the Python decision
procedure statement by statement. -/
def is_article_page (doc : NodeForest) : Bool :=
  match selectOne selArticleContainer doc with
  | some article_content_main_container =>
    (match selectOne selArticleBodyAlt article_content_main_container.childrenF with
     | some actual_body =>
       if hasStrippedText actual_body.childrenF then true
       else is_article_page_directory_checks doc
     | none => is_article_page_directory_checks doc)
  | none => is_article_page_directory_checks doc

/-! ## `extract_links_from_html` -/

/-- Append an element to the accumulator unless already present: the
effect of `set.add` observed in first-seen order (the Python function
returns `list(valid_urls)`, whose order a `set` does not fix; the model
fixes first-seen order). -/
def insertIfAbsent (acc : List String) (u : String) : List String :=
  if u ∈ acc then acc else acc ++ [u]

/-- The per-anchor step of `extract_links_from_html`: skip empty,
fragment and `javascript:` hrefs, resolve against the base URL, and keep
HTTP/HTTPS links on the live domain or containing a mock marker. -/
def extract_links_step (base_url : String) (acc : List String) (href : String) :
    List String :=
  if href = "" || pyStartsWith href "#" || pyStartsWith (pyLower href) "javascript:"
  then acc
  else
    let absolute_url := urljoin base_url href
    let parsed_url := urlparse absolute_url
    if (parsed_url.scheme = "http" || parsed_url.scheme = "https")
        && (parsed_url.netloc = target_live_domain
            || containsSub absolute_url "mockarticle"
            || containsSub absolute_url "mocktopic")
    then insertIfAbsent acc absolute_url
    else acc

/-- `extract_links_from_html(nav_block_html, base_url)`. -/
def extract_links_from_html (nav_block : NodeForest) (base_url : String) :
    List String :=
  let links_found := findAllAnchorsWithHref nav_block
  let hrefs := links_found.filterMap (fun n => n.getAttr "href")
  hrefs.foldl (extract_links_step base_url) []

example :
    extract_links_from_html
      (.one (.el "ul" []
        [.el "li" [] [.el "a" [("href", "#")] []],
         .el "li" [] [.el "a" [("href", "javascript:x")] []],
         .el "li" [] [.el "a" [("href", "https://other.org/a")] []],
         .el "li" []
           [.el "a" [("href", "https://www.knowva.ebenefits.va.gov/b")] []],
         .el "li" []
           [.el "a" [("href", "https://www.knowva.ebenefits.va.gov/b")] []]]))
      "https://www.knowva.ebenefits.va.gov/start"
      = ["https://www.knowva.ebenefits.va.gov/b"] := by decide

example : is_article_page (MOCK_ARTICLE_HTML "u") = true := by decide
example : is_article_page (MOCK_DIRECTORY_HTML "u" "a" "b" "c") = false := by
  decide
example :
    extract_links_from_html
      (.one (MOCK_DIRECTORY_LINKS_SNIPPET "u" (DUMMY_ARTICLE_URL_1 1)
        (DUMMY_DIRECTORY_URL_2 1) (DUMMY_ARTICLE_URL_3 1)))
      "https://www.knowva.ebenefits.va.gov/start"
      = [DUMMY_ARTICLE_URL_1 1, DUMMY_DIRECTORY_URL_2 1, DUMMY_ARTICLE_URL_3 1] := by
  decide
example : sub_topics_signal (MOCK_DIRECTORY_HTML "u" "a" "b" "c") = true := by
  decide
example : article_body_signal (MOCK_ARTICLE_HTML "u") = true := by decide

/-! ## Crawl engine -/

/-- `convert_html_to_markdown` and `save_markdown_to_file` aside, the
crawl engine's state is exactly the two structures `main` allocates and
`scrape_recursive` mutates: the visited set and the aggregated Markdown
parts.  The Python `set` is modelled as a list with membership. -/
structure ScrapeState where
  visited_urls : List String
  aggregated_markdown_parts : List String
deriving DecidableEq, Repr

/-- The external collaborators of the crawl engine: the live page
fetcher (`fetch_html`, returning the parsed rendered page or `None` on
any failure, including WAF blocks) and the Markdown renderer
(`markdownify`, applied to the serialised article-body element). -/
structure ScrapeEnv where
  fetch : String → Option NodeForest
  toMd : Node → Option String

/-- `convert_html_to_markdown(html_string)`: delegate to the external
renderer; `None` on failure, and a non-empty input element means the
`if not html_string` guard never fires. -/
def convert_html_to_markdown (env : ScrapeEnv) (n : Node) : Option String :=
  env.toMd n

/-- The provenance header `f"# Source URL: {current_url}\n\n"`. -/
def mk_url_header (url : String) : String :=
  "# Source URL: " ++ url ++ "\n\n"

/-- The `html_content` determination of `scrape_recursive`, together
with the `is_mocked_page` flag: a live fetch at depth 0 (`None` aborts
the visit), and beyond depth 0 a mock template selected by URL
substring on the lower-cased URL — article template for `/article/` or
`mockarticle`, directory template (with the three depth-tagged dummy
links) for `/topic/` or `mocktopic`, and `None` (skip) otherwise. -/
def page_html_for (env : ScrapeEnv) (current_url : String)
    (current_depth : Nat) : Option (NodeForest × Bool) :=
  if current_depth = 0 then
    match env.fetch current_url with
    | some html => some (html, false)
    | none => none
  else if containsSub (pyLower current_url) "/article/"
      || containsSub (pyLower current_url) "mockarticle" then
    some (MOCK_ARTICLE_HTML current_url, true)
  else if containsSub (pyLower current_url) "/topic/"
      || containsSub (pyLower current_url) "mocktopic" then
    some (MOCK_DIRECTORY_HTML current_url
      (DUMMY_ARTICLE_URL_1 current_depth) (DUMMY_DIRECTORY_URL_2 current_depth)
      (DUMMY_ARTICLE_URL_3 current_depth), true)
  else none

/-- The article branch of `scrape_recursive`: extract `div#article-body`
from the page, convert it to Markdown, and — when conversion produced a
non-empty string — append the header-prefixed Markdown to the
aggregated parts. -/
def process_article (env : ScrapeEnv) (current_url : String)
    (st : ScrapeState) (html_content : NodeForest) : ScrapeState :=
  match get_html_from_selector html_content selArticleBody with
  | some article_text_html =>
    match convert_html_to_markdown env article_text_html with
    | some markdown_content =>
      if markdown_content = "" then st
      else
        { st with
          aggregated_markdown_parts :=
            st.aggregated_markdown_parts
              ++ [mk_url_header current_url ++ markdown_content] }
    | none => st
  | none => st

/-- The navigation-block determination of the directory branch: on mock
pages, `ul#sub-topics-list` on the whole document; on live pages, look
inside `div#eg-ss-view`, falling back to the more-articles list when the
sub-topics list is absent or has no `li`. -/
def find_nav_block (html_content : NodeForest) (is_mocked_page : Bool) :
    Option Node :=
  if is_mocked_page then get_html_from_selector html_content selSubTopics
  else
    match get_html_from_selector html_content selEgSsView with
    | some eg_ss_view =>
      (match get_html_from_selector (.one eg_ss_view) selSubTopics with
       | some nav =>
         if (findTag "li" (.one nav)).isSome then some nav
         else get_html_from_selector (.one eg_ss_view) selMoreArticles
       | none => get_html_from_selector (.one eg_ss_view) selMoreArticles)
    | none => none

/-- One visit of `scrape_recursive` after the two guards and the
visited-set insertion, up to (but not including) the recursive calls:

* determine `html_content` via `page_html_for`; `.inl st` when it is
  `None` (fetch failure or unknown mock type);
* on an article page, `.inl` of `process_article`;
* on a directory page, find the navigation block and return `.inr` of
  the extracted links for the caller to recurse on.  The state is
  unchanged in the `.inr` case. -/
def scrape_step (env : ScrapeEnv) (current_url : String) (st : ScrapeState)
    (current_depth : Nat) : ScrapeState ⊕ List String :=
  match page_html_for env current_url current_depth with
  | none => .inl st
  | some (html_content, is_mocked_page) =>
    if is_article_page html_content then
      .inl (process_article env current_url st html_content)
    else
      match find_nav_block html_content is_mocked_page with
      | none => .inl st
      | some nav => .inr (extract_links_from_html (.one nav) current_url)

mutual
/-- `scrape_recursive(current_url, session, visited_urls,
aggregated_markdown_parts, current_depth, max_depth)`: the two guards,
the visited-set insertion, then the body. -/
def scrape_recursive (env : ScrapeEnv) (current_url : String)
    (st : ScrapeState) (current_depth max_depth : Nat) : ScrapeState :=
  if h : current_depth > max_depth then st
  else if current_url ∈ st.visited_urls then st
  else
    scrape_body env current_url
      { st with visited_urls := current_url :: st.visited_urls }
      current_depth max_depth
termination_by (max_depth + 2 - current_depth, 0, 0)

/-- The body of one visit after the guards and the insertion: run
`scrape_step` and recurse on the extracted links at `current_depth + 1`
when the page is a directory. -/
def scrape_body (env : ScrapeEnv) (current_url : String) (st : ScrapeState)
    (current_depth max_depth : Nat) : ScrapeState :=
  match scrape_step env current_url st current_depth with
  | .inl st2 => st2
  | .inr sub_links =>
    scrape_children env sub_links st (current_depth + 1) max_depth
termination_by (max_depth + 1 - current_depth, 2, 0)

/-- The `for new_url in sub_links` loop of `scrape_recursive`: visit the
links left to right, threading the state. -/
def scrape_children (env : ScrapeEnv) (links : List String) (st : ScrapeState)
    (current_depth max_depth : Nat) : ScrapeState :=
  match links with
  | [] => st
  | u :: rest =>
    scrape_children env rest
      (scrape_recursive env u st current_depth max_depth)
      current_depth max_depth
termination_by (max_depth + 2 - current_depth, 1, links.length)
end

/-! ## Depth-fuelled reference semantics

`scrape_recursive` above is defined by well-founded recursion, which the
kernel does not evaluate.  `scrapeFuel` is the same algorithm defined by
structural recursion on a fuel bounding the remaining recursion depth;
`scrape_fuel_spec` below proves that fuel `max_depth + 2` always
suffices and that the two semantics agree — which is the termination
argument for the crawl. -/

/-- The `for new_url in sub_links` loop with an abstract per-child
visit that may run out of fuel. -/
def goChildren (visit : String → ScrapeState → Option ScrapeState) :
    List String → ScrapeState → Option ScrapeState
  | [], st => some st
  | u :: rest, st =>
    match visit u st with
    | none => none
    | some st2 => goChildren visit rest st2

/-- Fuel-bounded `scrape_recursive`: `none` exactly when the fuel runs
out before the recursion bottoms out. -/
def scrapeFuel (env : ScrapeEnv) :
    Nat → String → ScrapeState → Nat → Nat → Option ScrapeState
  | 0, _, _, _, _ => none
  | fuel + 1, current_url, st, current_depth, max_depth =>
    if current_depth > max_depth then some st
    else if current_url ∈ st.visited_urls then some st
    else
      let st1 := { st with visited_urls := current_url :: st.visited_urls }
      match scrape_step env current_url st1 current_depth with
      | .inl st2 => some st2
      | .inr sub_links =>
        goChildren (fun u s => scrapeFuel env fuel u s (current_depth + 1) max_depth)
          sub_links st1

/-! ## `main` -/

/-- The separator `f"\n\n{'-'*40}\n\n"` used to join the aggregated
parts. -/
def SEPARATOR : String :=
  "\n\n" ++ String.mk (List.replicate 40 '-') ++ "\n\n"

/-- The externally observable outcome of one run of `main`: the
collected parts, the joined document (when any part was collected), the
attempted output file write `(filename, content)`, and the process exit
status. -/
structure RunResult where
  aggregated_markdown_parts : List String
  final_markdown : Option String
  output_file : Option (String × String)
  exit_code : Nat
deriving DecidableEq, Repr

/-- The `main` function after argument parsing: run the crawl from the
start URL at depth 0 with empty state; when parts were aggregated, join
them with the fixed separator and save to the output file.  `main`
neither calls `sys.exit` nor re-raises (its `except` clause only logs),
so the process exit status is 0 on every path. -/
def run_main (env : ScrapeEnv) (url : String) (max_depth : Nat)
    (output_filename : String) : RunResult :=
  let st := scrape_recursive env url ⟨[], []⟩ 0 max_depth
  if st.aggregated_markdown_parts.isEmpty then
    ⟨st.aggregated_markdown_parts, none, none, 0⟩
  else
    let final_markdown := joinParts SEPARATOR st.aggregated_markdown_parts
    ⟨st.aggregated_markdown_parts, some final_markdown,
      some (output_filename, final_markdown), 0⟩

/-! ## Unfolding equations for the well-founded definitions -/

theorem scrape_recursive_eq (env : ScrapeEnv) (current_url : String)
    (st : ScrapeState) (current_depth max_depth : Nat) :
    scrape_recursive env current_url st current_depth max_depth =
      if current_depth > max_depth then st
      else if current_url ∈ st.visited_urls then st
      else
        scrape_body env current_url
          { st with visited_urls := current_url :: st.visited_urls }
          current_depth max_depth := by
  rw [scrape_recursive]; rfl

theorem scrape_body_eq (env : ScrapeEnv) (current_url : String)
    (st : ScrapeState) (current_depth max_depth : Nat) :
    scrape_body env current_url st current_depth max_depth =
      match scrape_step env current_url st current_depth with
      | .inl st2 => st2
      | .inr sub_links =>
        scrape_children env sub_links st (current_depth + 1) max_depth := by
  rw [scrape_body]

theorem scrape_children_nil (env : ScrapeEnv) (st : ScrapeState)
    (current_depth max_depth : Nat) :
    scrape_children env [] st current_depth max_depth = st := by
  rw [scrape_children]

theorem scrape_children_cons (env : ScrapeEnv) (u : String) (rest : List String)
    (st : ScrapeState) (current_depth max_depth : Nat) :
    scrape_children env (u :: rest) st current_depth max_depth =
      scrape_children env rest
        (scrape_recursive env u st current_depth max_depth)
        current_depth max_depth := by
  rw [scrape_children]

/-! ## The fuelled and the recursive semantics agree -/

theorem goChildren_agrees (env : ScrapeEnv) (current_depth max_depth : Nat)
    (visit : String → ScrapeState → Option ScrapeState)
    (hvisit : ∀ u st, visit u st =
      some (scrape_recursive env u st current_depth max_depth)) :
    ∀ links st, goChildren visit links st =
      some (scrape_children env links st current_depth max_depth) := by
  intro links
  induction links with
  | nil => intro st; rw [goChildren, scrape_children_nil]
  | cons u rest ih =>
    intro st
    rw [goChildren, hvisit, scrape_children_cons]
    exact ih _

theorem scrapeFuel_correct (env : ScrapeEnv) (max_depth : Nat) :
    ∀ fuel current_url st current_depth,
      max_depth + 1 - current_depth < fuel →
      scrapeFuel env fuel current_url st current_depth max_depth =
        some (scrape_recursive env current_url st current_depth max_depth) := by
  intro fuel
  induction fuel with
  | zero => intro _ _ _ h; omega
  | succ fuel ih =>
    intro current_url st current_depth h
    rw [scrapeFuel, scrape_recursive_eq]
    by_cases hd : current_depth > max_depth
    · simp [hd]
    · by_cases hv : current_url ∈ st.visited_urls
      · simp [hd, hv]
      · simp only [if_neg hd, if_neg hv]
        rw [scrape_body_eq]
        cases hstep : scrape_step env current_url
            { st with visited_urls := current_url :: st.visited_urls }
            current_depth with
        | inl st2 => rfl
        | inr sub_links =>
          exact goChildren_agrees env (current_depth + 1) max_depth _
            (fun u s => ih u s (current_depth + 1) (by omega)) sub_links _

/-- Fuel `max_depth + 2` always suffices: the crawl's recursion depth is
bounded by the depth ceiling, and the fuelled run computes exactly the
recursive result. -/
theorem scrape_fuel_spec (env : ScrapeEnv) (current_url : String)
    (st : ScrapeState) (current_depth max_depth : Nat) :
    scrapeFuel env (max_depth + 2) current_url st current_depth max_depth =
      some (scrape_recursive env current_url st current_depth max_depth) :=
  scrapeFuel_correct env max_depth (max_depth + 2) current_url st current_depth
    (by omega)

/-! ## Effect of one step on the state -/

theorem process_article_visited (env : ScrapeEnv) (u : String)
    (st : ScrapeState) (html : NodeForest) :
    (process_article env u st html).visited_urls = st.visited_urls := by
  unfold process_article
  repeat' split
  all_goals rfl

theorem process_article_parts (env : ScrapeEnv) (u : String)
    (st : ScrapeState) (html : NodeForest) :
    (process_article env u st html).aggregated_markdown_parts =
        st.aggregated_markdown_parts ∨
      ∃ s, (process_article env u st html).aggregated_markdown_parts =
        st.aggregated_markdown_parts ++ [mk_url_header u ++ s] := by
  unfold process_article
  repeat' split
  all_goals simp

/-- A `.inl` result of `scrape_step` leaves the visited set unchanged
and either leaves the parts unchanged or appends exactly one
header-prefixed part for the visited URL. -/
theorem scrape_step_inl (env : ScrapeEnv) (u : String) (st : ScrapeState)
    (d : Nat) (st' : ScrapeState) (h : scrape_step env u st d = .inl st') :
    st'.visited_urls = st.visited_urls ∧
      (st'.aggregated_markdown_parts = st.aggregated_markdown_parts ∨
       ∃ s, st'.aggregated_markdown_parts =
         st.aggregated_markdown_parts ++ [mk_url_header u ++ s]) := by
  unfold scrape_step at h
  repeat' split at h
  · injection h with h; subst h; exact ⟨rfl, Or.inl rfl⟩
  · injection h with h; subst h
    exact ⟨process_article_visited .., process_article_parts ..⟩
  · injection h with h; subst h; exact ⟨rfl, Or.inl rfl⟩
  · exact absurd h (by simp)

/-! ## Monotonicity of the crawl state -/

/-- The per-visit state evolution: the visited set only grows, and the
parts list is only appended to. -/
def StateEvolves (st st' : ScrapeState) : Prop :=
  (∀ x ∈ st.visited_urls, x ∈ st'.visited_urls) ∧
    ∃ t, st'.aggregated_markdown_parts = st.aggregated_markdown_parts ++ t

theorem StateEvolves.refl (st : ScrapeState) : StateEvolves st st :=
  ⟨fun _ hx => hx, [], by simp⟩

theorem StateEvolves.trans {s1 s2 s3 : ScrapeState}
    (h1 : StateEvolves s1 s2) (h2 : StateEvolves s2 s3) :
    StateEvolves s1 s3 := by
  obtain ⟨hv1, t1, hp1⟩ := h1
  obtain ⟨hv2, t2, hp2⟩ := h2
  exact ⟨fun x hx => hv2 x (hv1 x hx), t1 ++ t2, by rw [hp2, hp1, List.append_assoc]⟩

theorem goChildren_mono (visit : String → ScrapeState → Option ScrapeState)
    (hv : ∀ u s s', visit u s = some s' → StateEvolves s s') :
    ∀ links s s', goChildren visit links s = some s' → StateEvolves s s' := by
  intro links
  induction links with
  | nil =>
    intro s s' h
    rw [goChildren] at h
    injection h with h
    subst h
    exact StateEvolves.refl s
  | cons u rest ih =>
    intro s s' h
    rw [goChildren] at h
    cases hu : visit u s with
    | none => rw [hu] at h; exact absurd h (by simp)
    | some s2 =>
      rw [hu] at h
      exact (hv u s s2 hu).trans (ih s2 s' h)

theorem scrapeFuel_mono :
    ∀ fuel (env : ScrapeEnv) (u : String) (st : ScrapeState) (d m : Nat)
      (st' : ScrapeState), scrapeFuel env fuel u st d m = some st' →
      StateEvolves st st' := by
  intro fuel
  induction fuel with
  | zero => intro env u st d m st' h; exact absurd h (by rw [scrapeFuel]; simp)
  | succ fuel ih =>
    intro env u st d m st' h
    rw [scrapeFuel] at h
    by_cases hd : d > m
    · rw [if_pos hd] at h; injection h with h; subst h; exact StateEvolves.refl st
    · rw [if_neg hd] at h
      by_cases hvis : u ∈ st.visited_urls
      · rw [if_pos hvis] at h; injection h with h; subst h
        exact StateEvolves.refl st
      · rw [if_neg hvis] at h
        dsimp only [] at h
        have hins : StateEvolves st
            { st with visited_urls := u :: st.visited_urls } :=
          ⟨fun x hx => List.mem_cons_of_mem u hx, [], by simp⟩
        cases hstep : scrape_step env u
            { st with visited_urls := u :: st.visited_urls } d with
        | inl st2 =>
          rw [hstep] at h
          injection h with h
          subst h
          obtain ⟨hvv, hpp⟩ := scrape_step_inl env u _ d st2 hstep
          refine hins.trans ⟨by rw [hvv]; exact fun x hx => hx, ?_⟩
          rcases hpp with hpp | ⟨s, hpp⟩
          · exact ⟨[], by simp [hpp]⟩
          · exact ⟨[mk_url_header u ++ s], hpp⟩
        | inr links =>
          rw [hstep] at h
          exact hins.trans
            (goChildren_mono _ (fun u2 s s' h2 => ih env u2 s (d + 1) m s' h2)
              links _ st' h)

/-- Transfer of monotonicity to the recursive semantics. -/
theorem scrape_recursive_mono (env : ScrapeEnv) (u : String)
    (st : ScrapeState) (d m : Nat) :
    StateEvolves st (scrape_recursive env u st d m) :=
  scrapeFuel_mono (m + 2) env u st d m _ (scrape_fuel_spec env u st d m)

theorem scrape_children_mono (env : ScrapeEnv) (links : List String)
    (st : ScrapeState) (d m : Nat) :
    StateEvolves st (scrape_children env links st d m) := by
  induction links generalizing st with
  | nil => rw [scrape_children_nil]; exact StateEvolves.refl st
  | cons u rest ih =>
    rw [scrape_children_cons]
    exact (scrape_recursive_mono env u st d m).trans (ih _)

/-! ## Shape of the aggregated parts -/

theorem goChildren_parts_shape
    (visit : String → ScrapeState → Option ScrapeState)
    (hmono : ∀ u s s', visit u s = some s' → StateEvolves s s')
    (hshape : ∀ u s s' p, visit u s = some s' →
      p ∈ s'.aggregated_markdown_parts →
      p ∈ s.aggregated_markdown_parts ∨
        ∃ v r, v ∈ s'.visited_urls ∧ p = mk_url_header v ++ r) :
    ∀ links s s' p, goChildren visit links s = some s' →
      p ∈ s'.aggregated_markdown_parts →
      p ∈ s.aggregated_markdown_parts ∨
        ∃ v r, v ∈ s'.visited_urls ∧ p = mk_url_header v ++ r := by
  intro links
  induction links with
  | nil =>
    intro s s' p h hp
    rw [goChildren] at h
    injection h with h
    subst h
    exact Or.inl hp
  | cons u rest ih =>
    intro s s' p h hp
    rw [goChildren] at h
    cases hu : visit u s with
    | none => rw [hu] at h; exact absurd h (by simp)
    | some s2 =>
      rw [hu] at h
      rcases ih s2 s' p h hp with hmem | hex
      · rcases hshape u s s2 p hu hmem with hmem2 | ⟨v, r, hv, hr⟩
        · exact Or.inl hmem2
        · exact Or.inr ⟨v, r,
            (goChildren_mono visit hmono rest s2 s' h).1 v hv, hr⟩
      · exact Or.inr hex

theorem scrapeFuel_parts_shape :
    ∀ fuel (env : ScrapeEnv) (u : String) (st : ScrapeState) (d m : Nat)
      (st' : ScrapeState) (p : String),
      scrapeFuel env fuel u st d m = some st' →
      p ∈ st'.aggregated_markdown_parts →
      p ∈ st.aggregated_markdown_parts ∨
        ∃ v r, v ∈ st'.visited_urls ∧ p = mk_url_header v ++ r := by
  intro fuel
  induction fuel with
  | zero => intro env u st d m st' p h; exact absurd h (by rw [scrapeFuel]; simp)
  | succ fuel ih =>
    intro env u st d m st' p h hp
    rw [scrapeFuel] at h
    by_cases hd : d > m
    · rw [if_pos hd] at h; injection h with h; subst h; exact Or.inl hp
    · rw [if_neg hd] at h
      by_cases hvis : u ∈ st.visited_urls
      · rw [if_pos hvis] at h; injection h with h; subst h; exact Or.inl hp
      · rw [if_neg hvis] at h
        dsimp only [] at h
        cases hstep : scrape_step env u
            { st with visited_urls := u :: st.visited_urls } d with
        | inl st2 =>
          rw [hstep] at h
          injection h with h
          subst h
          obtain ⟨hvv, hpp⟩ := scrape_step_inl env u _ d st2 hstep
          rcases hpp with hpp | ⟨s, hpp⟩
          · exact Or.inl (by rw [hpp] at hp; exact hp)
          · rw [hpp] at hp
            rcases List.mem_append.1 hp with hmem | hone
            · exact Or.inl hmem
            · refine Or.inr ⟨u, s, ?_, by simpa using hone⟩
              rw [hvv]; exact List.mem_cons_self u _
        | inr links =>
          rw [hstep] at h
          rcases goChildren_parts_shape _
              (fun u2 s s' h2 => scrapeFuel_mono fuel env u2 s (d + 1) m s' h2)
              (fun u2 s s' q h2 hq => ih env u2 s (d + 1) m s' q h2 hq)
              links _ st' p h hp with hmem | hex
          · exact Or.inl hmem
          · exact Or.inr hex

/-! ## The fetcher is consulted only at depth 0 -/

theorem page_html_for_fetch_irrel (env1 env2 : ScrapeEnv) (u : String)
    (d : Nat) (hd : d ≠ 0) :
    page_html_for env1 u d = page_html_for env2 u d := by
  unfold page_html_for
  rw [if_neg hd, if_neg hd]

theorem scrape_step_env_irrel (env1 env2 : ScrapeEnv) (u : String)
    (st : ScrapeState) (d : Nat) (hd : d ≠ 0)
    (hmd : env1.toMd = env2.toMd) :
    scrape_step env1 u st d = scrape_step env2 u st d := by
  unfold scrape_step process_article convert_html_to_markdown
  rw [page_html_for_fetch_irrel env1 env2 u d hd, hmd]

theorem scrapeFuel_fetch_irrel :
    ∀ fuel (env1 env2 : ScrapeEnv) (u : String) (st : ScrapeState) (d m : Nat),
      env1.toMd = env2.toMd → 1 ≤ d →
      scrapeFuel env1 fuel u st d m = scrapeFuel env2 fuel u st d m := by
  intro fuel
  induction fuel with
  | zero => intro env1 env2 u st d m _ _; rw [scrapeFuel, scrapeFuel]
  | succ fuel ih =>
    intro env1 env2 u st d m hmd hd
    rw [scrapeFuel, scrapeFuel]
    have hstep := scrape_step_env_irrel env1 env2 u
      { st with visited_urls := u :: st.visited_urls } d (by omega) hmd
    have hvisit : (fun u2 s => scrapeFuel env1 fuel u2 s (d + 1) m) =
        (fun u2 s => scrapeFuel env2 fuel u2 s (d + 1) m) := by
      funext u2 s
      exact ih env1 env2 u2 s (d + 1) m hmd (by omega)
    dsimp only []
    rw [hstep, hvisit]

/-- Beyond depth 0, the crawl never consults the live fetcher: two
environments agreeing on the Markdown renderer produce identical crawls
from any depth `d ≥ 1`. -/
theorem scrape_recursive_fetch_irrel (env1 env2 : ScrapeEnv) (u : String)
    (st : ScrapeState) (d m : Nat) (hmd : env1.toMd = env2.toMd)
    (hd : 1 ≤ d) :
    scrape_recursive env1 u st d m = scrape_recursive env2 u st d m := by
  have h1 := scrape_fuel_spec env1 u st d m
  have h2 := scrape_fuel_spec env2 u st d m
  rw [scrapeFuel_fetch_irrel (m + 2) env1 env2 u st d m hmd hd] at h1
  rw [h1] at h2
  injection h2

/-! ## Scanning lemmas for partially concrete URLs -/

theorem startsWithList_nil_pat : ∀ l, startsWithList l [] = true := by
  intro l; cases l <;> rfl

theorem startsWithList_append (p : List Char) :
    ∀ l l2, startsWithList l p = true → startsWithList (l ++ l2) p = true := by
  induction p with
  | nil => intro l l2 _; exact startsWithList_nil_pat _
  | cons c p ih =>
    intro l l2 h
    cases l with
    | nil => simp [startsWithList] at h
    | cons a l =>
      rw [List.cons_append]
      simp only [startsWithList, Bool.and_eq_true, decide_eq_true_eq] at h ⊢
      exact ⟨h.1, ih l l2 h.2⟩

theorem containsSubList_nil_pat : ∀ l, containsSubList [] l = true := by
  intro l
  cases l with
  | nil => rfl
  | cons c rest => rw [containsSubList]; rfl

theorem containsSubList_append_left (p : List Char) :
    ∀ l l2, containsSubList p l = true → containsSubList p (l ++ l2) = true := by
  intro l
  induction l with
  | nil =>
    intro l2 h
    rw [containsSubList] at h
    rw [List.isEmpty_iff] at h
    subst h
    exact containsSubList_nil_pat l2
  | cons c l ih =>
    intro l2 h
    rw [containsSubList] at h
    rw [List.cons_append, containsSubList]
    simp only [Bool.or_eq_true] at h
    rcases h with hs | hc
    · rw [show (c :: (l ++ l2)) = (c :: l) ++ l2 from rfl,
        startsWithList_append p (c :: l) l2 hs]
      rfl
    · rw [ih l2 hc, Bool.or_true]

theorem containsSub_append_left (a b pat : String)
    (h : containsSub a pat = true) : containsSub (a ++ b) pat = true := by
  unfold containsSub at h ⊢
  rw [show (a ++ b).toList = a.toList ++ b.toList from String.data_append a b]
  exact containsSubList_append_left _ _ _ h

theorem schemeSplitAux_spec (rest : List Char) :
    ∀ sch acc, (∀ x ∈ sch, isSchemeChar x = true ∧ x ≠ ':') →
      schemeSplitAux acc (sch ++ ':' :: rest) = some (acc.reverse ++ sch, rest) := by
  intro sch
  induction sch with
  | nil => intro acc _; simp [schemeSplitAux]
  | cons c cs ih =>
    intro acc hc
    have h1 := hc c (List.mem_cons_self c cs)
    rw [List.cons_append, schemeSplitAux, if_neg h1.2, if_pos h1.1,
      ih (c :: acc) (fun x hx => hc x (List.mem_cons_of_mem c hx))]
    simp

theorem takeNetlocAux_spec (rest : List Char) :
    ∀ nl acc, (∀ x ∈ nl, (x = '/' || x = '?' || x = '#') = false) →
      takeNetlocAux acc (nl ++ '/' :: rest) = (acc.reverse ++ nl, '/' :: rest) := by
  intro nl
  induction nl with
  | nil => intro acc _; simp [takeNetlocAux]
  | cons c cs ih =>
    intro acc hc
    have h1 := hc c (List.mem_cons_self c cs)
    rw [List.cons_append, takeNetlocAux, if_neg (by simp [h1]),
      ih (c :: acc) (fun x hx => hc x (List.mem_cons_of_mem c hx))]
    simp

theorem splitScheme_spec (s : String) (c : Char) (sch rest : List Char)
    (h : s.data = c :: (sch ++ ':' :: rest)) (hc : c.isAlpha = true)
    (hsch : ∀ x ∈ sch, isSchemeChar x = true ∧ x ≠ ':') :
    splitScheme s =
      (String.mk ((c :: sch).map Char.toLower), String.mk rest) := by
  unfold splitScheme
  rw [show s.toList = c :: (sch ++ ':' :: rest) from h]
  dsimp only []
  rw [if_pos hc, schemeSplitAux_spec rest sch [c] hsch]
  simp

theorem urlparse_spec (s : String) (c : Char) (sch nl r : List Char)
    (h : s.data = c :: (sch ++ ':' :: '/' :: '/' :: (nl ++ '/' :: r)))
    (hc : c.isAlpha = true)
    (hsch : ∀ x ∈ sch, isSchemeChar x = true ∧ x ≠ ':')
    (hnl : ∀ x ∈ nl, (x = '/' || x = '?' || x = '#') = false) :
    urlparse s =
      ⟨String.mk ((c :: sch).map Char.toLower), String.mk nl,
        String.mk ('/' :: r)⟩ := by
  unfold urlparse
  rw [splitScheme_spec s c sch ('/' :: '/' :: (nl ++ '/' :: r)) h hc hsch]
  dsimp only []
  rw [show (String.mk ('/' :: '/' :: (nl ++ '/' :: r))).toList =
    '/' :: '/' :: (nl ++ '/' :: r) from rfl]
  split
  · rename_i t ht
    have h4 : nl ++ '/' :: r = t := by
      injection ht with e1 e2
      injection e2 with e3 e4
    subst h4
    rw [takeNetlocAux_spec r nl [] hnl]
    simp
  · rename_i hno
    exact absurd rfl (hno (nl ++ '/' :: r))

/-! ## URL facts about the crawl target and the dummy URLs -/

/-- The path of `KNOWVA_PORTAL` after the domain, without its leading
slash. -/
def KNOWVA_PATH_REST : String :=
  "system/templates/selfservice/va_ssnew/help/customer/locale/en-US/portal/554400000001018/"

theorem knowva_data (tail : String) :
    (KNOWVA_PORTAL ++ tail).data =
      'h' :: (['t', 't', 'p', 's'] ++ ':' :: '/' :: '/' ::
        (target_live_domain.data ++ '/' ::
          (KNOWVA_PATH_REST.data ++ tail.data))) := by
  rw [String.data_append]
  rw [show KNOWVA_PORTAL.data =
    'h' :: (['t', 't', 'p', 's'] ++ ':' :: '/' :: '/' ::
      (target_live_domain.data ++ '/' :: KNOWVA_PATH_REST.data)) from by decide]
  simp

theorem urlparse_knowva (tail : String) :
    urlparse (KNOWVA_PORTAL ++ tail) =
      ⟨"https", target_live_domain,
        String.mk ('/' :: (KNOWVA_PATH_REST.data ++ tail.data))⟩ := by
  rw [urlparse_spec (KNOWVA_PORTAL ++ tail) 'h' ['t', 't', 'p', 's']
    target_live_domain.data (KNOWVA_PATH_REST.data ++ tail.data)
    (knowva_data tail) (by decide) (by decide) (by decide)]
  simp only [show String.mk (List.map Char.toLower
      ('h' :: ['t', 't', 'p', 's'])) = "https" from by decide]

theorem knowva_ne_empty (tail : String) : KNOWVA_PORTAL ++ tail ≠ "" := by
  intro he
  have hd := congrArg String.data he
  rw [knowva_data tail] at hd
  simp at hd

theorem urljoin_knowva (base tail : String) :
    urljoin base (KNOWVA_PORTAL ++ tail) = KNOWVA_PORTAL ++ tail := by
  unfold urljoin
  by_cases hb : base = ""
  · rw [if_pos hb]
  · rw [if_neg hb, if_neg (knowva_ne_empty tail)]
    dsimp only []
    rw [urlparse_knowva tail]
    dsimp only []
    rw [if_neg (show ¬("https" : String) = "" from by decide)]
    by_cases hbs : (urlparse base).scheme = "https"
    · rw [if_neg (show ¬(("https" : String) ≠ (urlparse base).scheme ∨
        ¬ uses_relative.contains "https" = true) from by
          rw [hbs]; simp; decide)]
      rw [if_pos (show uses_netloc.contains "https" = true ∧
        target_live_domain ≠ "" from by constructor <;> decide)]
      apply String.ext
      rw [knowva_data tail]
      rw [show urlunparse3 "https" target_live_domain
          (String.mk ('/' :: (KNOWVA_PATH_REST.data ++ tail.data))) =
        ("https://" ++ target_live_domain) ++
          String.mk ('/' :: (KNOWVA_PATH_REST.data ++ tail.data)) from by
            unfold urlunparse3
            rw [if_neg (show ¬("https" : String) = "" from by decide),
              if_neg (show ¬target_live_domain = "" from by decide)]
            apply String.ext
            simp [String.data_append]]
      simp [String.data_append]
    · rw [if_pos (Or.inl (fun he => hbs he.symm))]

theorem dummy1_eq (d : Nat) : DUMMY_ARTICLE_URL_1 d =
    KNOWVA_PORTAL ++ ("article/mockarticle1_from_depth_" ++
      (toString d ++ "/Mock-Article-Page-1")) := by
  unfold DUMMY_ARTICLE_URL_1
  rw [String.append_assoc, String.append_assoc]

theorem dummy2_eq (d : Nat) : DUMMY_DIRECTORY_URL_2 d =
    KNOWVA_PORTAL ++ ("topic/mocktopic2_from_depth_" ++
      (toString d ++ "/Mock-Directory-Page-2")) := by
  unfold DUMMY_DIRECTORY_URL_2
  rw [String.append_assoc, String.append_assoc]

theorem dummy3_eq (d : Nat) : DUMMY_ARTICLE_URL_3 d =
    KNOWVA_PORTAL ++ ("article/mockarticle3_from_depth_" ++
      (toString d ++ "/Mock-Article-Page-3")) := by
  unfold DUMMY_ARTICLE_URL_3
  rw [String.append_assoc, String.append_assoc]

theorem knowva_not_fragment (tail : String) :
    pyStartsWith (KNOWVA_PORTAL ++ tail) "#" = false := by
  unfold pyStartsWith
  rw [show (KNOWVA_PORTAL ++ tail).toList = 'h' ::
    (['t', 't', 'p', 's'] ++ ':' :: '/' :: '/' ::
      (target_live_domain.data ++ '/' ::
        (KNOWVA_PATH_REST.data ++ tail.data))) from knowva_data tail]
  rw [show ("#" : String).toList = ['#'] from rfl]
  simp [startsWithList]

theorem knowva_not_javascript (tail : String) :
    pyStartsWith (pyLower (KNOWVA_PORTAL ++ tail)) "javascript:" = false := by
  unfold pyStartsWith pyLower
  rw [show (KNOWVA_PORTAL ++ tail).toList = 'h' ::
    (['t', 't', 'p', 's'] ++ ':' :: '/' :: '/' ::
      (target_live_domain.data ++ '/' ::
        (KNOWVA_PATH_REST.data ++ tail.data))) from knowva_data tail]
  rw [show ("javascript:" : String).toList =
    'j' :: "avascript:".toList from rfl]
  rw [List.map_cons]
  simp [startsWithList, show Char.toLower 'h' = 'h' from by decide]

theorem extract_links_step_knowva (base : String) (acc : List String)
    (tail : String) :
    extract_links_step base acc (KNOWVA_PORTAL ++ tail) =
      insertIfAbsent acc (KNOWVA_PORTAL ++ tail) := by
  unfold extract_links_step
  rw [if_neg (show ¬((decide (KNOWVA_PORTAL ++ tail = "")
      || pyStartsWith (KNOWVA_PORTAL ++ tail) "#"
      || pyStartsWith (pyLower (KNOWVA_PORTAL ++ tail)) "javascript:") = true)
    from by
      simp [knowva_not_fragment, knowva_not_javascript, knowva_ne_empty tail])]
  dsimp only []
  rw [urljoin_knowva base tail, urlparse_knowva tail]
  rw [if_pos (show ((decide (("https" : String) = "http")
      || decide (("https" : String) = "https"))
      && (decide (target_live_domain = target_live_domain)
          || containsSub (KNOWVA_PORTAL ++ tail) "mockarticle"
          || containsSub (KNOWVA_PORTAL ++ tail) "mocktopic")) = true from by
    simp)]

theorem dummy1_ne_dummy2 (d : Nat) :
    DUMMY_ARTICLE_URL_1 d ≠ DUMMY_DIRECTORY_URL_2 d := by
  intro he
  have hlen := congrArg (fun s => s.data.length) he
  unfold DUMMY_ARTICLE_URL_1 DUMMY_DIRECTORY_URL_2 at hlen
  simp only [String.data_append, List.length_append] at hlen
  rw [show ("article/mockarticle1_from_depth_" : String).data.length = 32
      from by decide,
    show ("/Mock-Article-Page-1" : String).data.length = 20 from by decide,
    show ("topic/mocktopic2_from_depth_" : String).data.length = 28
      from by decide,
    show ("/Mock-Directory-Page-2" : String).data.length = 22 from by decide]
    at hlen
  omega

theorem dummy2_ne_dummy3 (d : Nat) :
    DUMMY_DIRECTORY_URL_2 d ≠ DUMMY_ARTICLE_URL_3 d := by
  intro he
  have hlen := congrArg (fun s => s.data.length) he
  unfold DUMMY_DIRECTORY_URL_2 DUMMY_ARTICLE_URL_3 at hlen
  simp only [String.data_append, List.length_append] at hlen
  rw [show ("topic/mocktopic2_from_depth_" : String).data.length = 28
      from by decide,
    show ("/Mock-Directory-Page-2" : String).data.length = 22 from by decide,
    show ("article/mockarticle3_from_depth_" : String).data.length = 32
      from by decide,
    show ("/Mock-Article-Page-3" : String).data.length = 20 from by decide]
    at hlen
  omega

theorem dummy1_ne_dummy3 (d : Nat) :
    DUMMY_ARTICLE_URL_1 d ≠ DUMMY_ARTICLE_URL_3 d := by
  intro he
  have hd := congrArg String.data he
  unfold DUMMY_ARTICLE_URL_1 DUMMY_ARTICLE_URL_3 at hd
  simp only [String.data_append] at hd
  rw [show KNOWVA_PORTAL.data ++ ("article/mockarticle1_from_depth_" : String).data
        ++ (toString d).data ++ ("/Mock-Article-Page-1" : String).data =
      (KNOWVA_PORTAL.data ++ ("article/mockarticle1_from_depth_" : String).data)
        ++ ((toString d).data ++ ("/Mock-Article-Page-1" : String).data) from by
        simp [List.append_assoc],
    show KNOWVA_PORTAL.data ++ ("article/mockarticle3_from_depth_" : String).data
        ++ (toString d).data ++ ("/Mock-Article-Page-3" : String).data =
      (KNOWVA_PORTAL.data ++ ("article/mockarticle3_from_depth_" : String).data)
        ++ ((toString d).data ++ ("/Mock-Article-Page-3" : String).data) from by
        simp [List.append_assoc]] at hd
  have hpre := (List.append_inj hd (by decide)).1
  exact absurd hpre (by decide)

theorem mock_nav_hrefs (u l1 l2 l3 : String) :
    (findAllAnchorsWithHref
        (.one (MOCK_DIRECTORY_LINKS_SNIPPET u l1 l2 l3))).filterMap
      (fun n => n.getAttr "href") = [l1, l2, l3] := by
  simp [MOCK_DIRECTORY_LINKS_SNIPPET, Node.el, Node.tx, NodeForest.ofList,
    NodeForest.one, findAllAnchorsWithHref, Node.getAttr]

/-- Extracting links from the mock directory's navigation block with the
three dummy links returns exactly the three dummy URLs, in document
order, each kept by the filter (their origin is the live domain and the
resolution against any base URL leaves them unchanged). -/
theorem extract_links_mock_dir (base : String) (d : Nat) :
    extract_links_from_html
        (.one (MOCK_DIRECTORY_LINKS_SNIPPET base (DUMMY_ARTICLE_URL_1 d)
          (DUMMY_DIRECTORY_URL_2 d) (DUMMY_ARTICLE_URL_3 d))) base =
      [DUMMY_ARTICLE_URL_1 d, DUMMY_DIRECTORY_URL_2 d,
        DUMMY_ARTICLE_URL_3 d] := by
  unfold extract_links_from_html
  dsimp only []
  rw [mock_nav_hrefs]
  rw [List.foldl_cons, List.foldl_cons, List.foldl_cons, List.foldl_nil]
  rw [show extract_links_step base [] (DUMMY_ARTICLE_URL_1 d) =
      insertIfAbsent [] (DUMMY_ARTICLE_URL_1 d) from by
    rw [dummy1_eq]; exact extract_links_step_knowva base [] _]
  rw [show insertIfAbsent [] (DUMMY_ARTICLE_URL_1 d) =
    [DUMMY_ARTICLE_URL_1 d] from by unfold insertIfAbsent; simp]
  rw [show extract_links_step base [DUMMY_ARTICLE_URL_1 d]
      (DUMMY_DIRECTORY_URL_2 d) =
      insertIfAbsent [DUMMY_ARTICLE_URL_1 d] (DUMMY_DIRECTORY_URL_2 d) from by
    rw [dummy2_eq]; exact extract_links_step_knowva base _ _]
  rw [show insertIfAbsent [DUMMY_ARTICLE_URL_1 d] (DUMMY_DIRECTORY_URL_2 d) =
    [DUMMY_ARTICLE_URL_1 d, DUMMY_DIRECTORY_URL_2 d] from by
      unfold insertIfAbsent
      rw [if_neg (by
        simp only [List.mem_singleton]
        exact fun he => dummy1_ne_dummy2 d he.symm)]
      rfl]
  rw [show extract_links_step base
      [DUMMY_ARTICLE_URL_1 d, DUMMY_DIRECTORY_URL_2 d]
      (DUMMY_ARTICLE_URL_3 d) =
      insertIfAbsent [DUMMY_ARTICLE_URL_1 d, DUMMY_DIRECTORY_URL_2 d]
        (DUMMY_ARTICLE_URL_3 d) from by
    rw [dummy3_eq]; exact extract_links_step_knowva base _ _]
  unfold insertIfAbsent
  rw [if_neg (by
    simp only [List.mem_cons, List.mem_singleton, List.not_mem_nil]
    push_neg
    exact ⟨fun he => dummy1_ne_dummy3 d he.symm,
      fun he => dummy2_ne_dummy3 d he.symm, not_false⟩)]
  rfl

/-! ## Classification of the mock pages (for every URL) -/

theorem is_article_page_mock_article (u : String) :
    is_article_page (MOCK_ARTICLE_HTML u) = true := by
  have h2 : decide (pyStrip "This content is used because the script is operating in a mode where pages beyond the initial one are mocked for testing/development, or a live fetch attempt for an article page failed." ≠ "") = true := by
    decide
  have hsel1 : selectOne selArticleContainer (MOCK_ARTICLE_HTML u) =
      some (MOCK_ARTICLE_CONTENT_SNIPPET u) := by
    simp [MOCK_ARTICLE_HTML, MOCK_ARTICLE_CONTENT_SNIPPET, Node.el, Node.tx,
      NodeForest.ofList, NodeForest.one, selectOne, selArticleContainer,
      selectOneSimple, matchesSimple, Node.getAttr]
  have hsel2 : selectOne selArticleBodyAlt
      (MOCK_ARTICLE_CONTENT_SNIPPET u).childrenF =
      some (.el "div" [("id", "article-body")]
        [.el "h1" [] [.tx ("Mocked Article: " ++ u)],
         .el "p" [] [.tx ("This is MOCK content. Original URL: " ++ u)],
         .el "p" []
           [.tx ("This content is used because the script is operating in a mode where pages beyond the initial one are mocked for testing/development, or a live fetch attempt for an article page failed.")]]) := by
    simp [MOCK_ARTICLE_CONTENT_SNIPPET, Node.el, Node.tx, NodeForest.ofList,
      selectOne, selArticleBodyAlt, selectOneSimple, matchesSimple,
      Node.getAttr, Node.childrenF]
  have hstr : hasStrippedText (Node.el "div" [("id", "article-body")]
      [.el "h1" [] [.tx ("Mocked Article: " ++ u)],
       .el "p" [] [.tx ("This is MOCK content. Original URL: " ++ u)],
       .el "p" []
         [.tx ("This content is used because the script is operating in a mode where pages beyond the initial one are mocked for testing/development, or a live fetch attempt for an article page failed.")]]).childrenF = true := by
    simp [Node.el, Node.tx, NodeForest.ofList, Node.childrenF, hasStrippedText,
      h2]
  unfold is_article_page
  rw [hsel1]
  dsimp only []
  rw [hsel2]
  dsimp only []
  rw [hstr]
  simp

theorem is_article_page_mock_directory (u l1 l2 l3 : String) :
    is_article_page (MOCK_DIRECTORY_HTML u l1 l2 l3) = false := by
  have hsel1 : selectOne selArticleContainer (MOCK_DIRECTORY_HTML u l1 l2 l3) =
      none := by
    simp [MOCK_DIRECTORY_HTML, MOCK_DIRECTORY_LINKS_SNIPPET, Node.el, Node.tx,
      NodeForest.ofList, NodeForest.one, selectOne, selArticleContainer,
      selectOneSimple, matchesSimple, Node.getAttr]
  have hdir : is_article_page_directory_checks (MOCK_DIRECTORY_HTML u l1 l2 l3)
      = false := by
    simp [is_article_page_directory_checks, is_article_page_more_articles,
      directory_context, MOCK_DIRECTORY_HTML, MOCK_DIRECTORY_LINKS_SNIPPET,
      Node.el, Node.tx, NodeForest.ofList, NodeForest.one, selectOne,
      selEgSsView, selSubTopics, selMoreArticles, selectOneSimple,
      selectOneDesc, matchesSimple, Node.getAttr, Node.childrenF, findTag]
  unfold is_article_page
  rw [hsel1]
  dsimp only []
  exact hdir

theorem find_nav_block_mock_directory (u l1 l2 l3 : String) :
    find_nav_block (MOCK_DIRECTORY_HTML u l1 l2 l3) true =
      some (MOCK_DIRECTORY_LINKS_SNIPPET u l1 l2 l3) := by
  simp [find_nav_block, get_html_from_selector, MOCK_DIRECTORY_HTML,
    MOCK_DIRECTORY_LINKS_SNIPPET, Node.el, Node.tx, NodeForest.ofList,
    NodeForest.one, selectOne, selSubTopics, selectOneSimple, matchesSimple,
    Node.getAttr]

theorem article_body_mock_article (u : String) :
    get_html_from_selector (MOCK_ARTICLE_HTML u) selArticleBody =
      some (.el "div" [("id", "article-body")]
        [.el "h1" [] [.tx ("Mocked Article: " ++ u)],
         .el "p" [] [.tx ("This is MOCK content. Original URL: " ++ u)],
         .el "p" []
           [.tx ("This content is used because the script is operating in a mode where pages beyond the initial one are mocked for testing/development, or a live fetch attempt for an article page failed.")]]) := by
  simp [get_html_from_selector, MOCK_ARTICLE_HTML,
    MOCK_ARTICLE_CONTENT_SNIPPET, Node.el, Node.tx, NodeForest.ofList,
    NodeForest.one, selectOne, selArticleBody, selectOneSimple, matchesSimple,
    Node.getAttr]

/-! ## Behaviour of a visit beyond depth 0 -/

/-- The URL substring test selecting the mock article template
(evaluated on the lower-cased URL). -/
def article_marker (u : String) : Bool :=
  containsSub (pyLower u) "/article/" || containsSub (pyLower u) "mockarticle"

/-- The URL substring test selecting the mock directory template
(evaluated on the lower-cased URL). -/
def topic_marker (u : String) : Bool :=
  containsSub (pyLower u) "/topic/" || containsSub (pyLower u) "mocktopic"

theorem page_html_for_pos (env : ScrapeEnv) (u : String) (d : Nat)
    (hd : d ≠ 0) :
    page_html_for env u d =
      if article_marker u then some (MOCK_ARTICLE_HTML u, true)
      else if topic_marker u then
        some (MOCK_DIRECTORY_HTML u (DUMMY_ARTICLE_URL_1 d)
          (DUMMY_DIRECTORY_URL_2 d) (DUMMY_ARTICLE_URL_3 d), true)
      else none := by
  unfold page_html_for article_marker topic_marker
  rw [if_neg hd]

theorem scrape_step_mock_article (env : ScrapeEnv) (u : String)
    (st : ScrapeState) (d : Nat) (hd : d ≠ 0) (ha : article_marker u = true) :
    scrape_step env u st d =
      .inl (process_article env u st (MOCK_ARTICLE_HTML u)) := by
  unfold scrape_step
  rw [page_html_for_pos env u d hd, if_pos ha]
  dsimp only []
  rw [if_pos (is_article_page_mock_article u)]

theorem scrape_step_mock_topic (env : ScrapeEnv) (u : String)
    (st : ScrapeState) (d : Nat) (hd : d ≠ 0) (ha : article_marker u = false)
    (ht : topic_marker u = true) :
    scrape_step env u st d =
      .inr [DUMMY_ARTICLE_URL_1 d, DUMMY_DIRECTORY_URL_2 d,
        DUMMY_ARTICLE_URL_3 d] := by
  unfold scrape_step
  rw [page_html_for_pos env u d hd, if_neg (by simp [ha]), if_pos ht]
  dsimp only []
  rw [if_neg (by simp [is_article_page_mock_directory])]
  rw [find_nav_block_mock_directory]
  dsimp only []
  rw [extract_links_mock_dir u d]

theorem scrape_step_mock_skip (env : ScrapeEnv) (u : String)
    (st : ScrapeState) (d : Nat) (hd : d ≠ 0) (ha : article_marker u = false)
    (ht : topic_marker u = false) :
    scrape_step env u st d = .inl st := by
  unfold scrape_step
  rw [page_html_for_pos env u d hd, if_neg (by simp [ha]),
    if_neg (by simp [ht])]

theorem scrape_recursive_mock_article (env : ScrapeEnv) (u : String)
    (st : ScrapeState) (d m : Nat) (hd : 1 ≤ d) (hdm : d ≤ m)
    (hv : u ∉ st.visited_urls) (ha : article_marker u = true) :
    scrape_recursive env u st d m =
      process_article env u { st with visited_urls := u :: st.visited_urls }
        (MOCK_ARTICLE_HTML u) := by
  rw [scrape_recursive_eq, if_neg (by omega), if_neg hv, scrape_body_eq,
    scrape_step_mock_article env u _ d (by omega) ha]

theorem scrape_recursive_mock_topic (env : ScrapeEnv) (u : String)
    (st : ScrapeState) (d m : Nat) (hd : 1 ≤ d) (hdm : d ≤ m)
    (hv : u ∉ st.visited_urls) (ha : article_marker u = false)
    (ht : topic_marker u = true) :
    scrape_recursive env u st d m =
      scrape_children env
        [DUMMY_ARTICLE_URL_1 d, DUMMY_DIRECTORY_URL_2 d, DUMMY_ARTICLE_URL_3 d]
        { st with visited_urls := u :: st.visited_urls } (d + 1) m := by
  rw [scrape_recursive_eq, if_neg (by omega), if_neg hv, scrape_body_eq,
    scrape_step_mock_topic env u _ d (by omega) ha ht]

theorem scrape_recursive_mock_skip (env : ScrapeEnv) (u : String)
    (st : ScrapeState) (d m : Nat) (hd : 1 ≤ d) (hdm : d ≤ m)
    (hv : u ∉ st.visited_urls) (ha : article_marker u = false)
    (ht : topic_marker u = false) :
    scrape_recursive env u st d m =
      { st with visited_urls := u :: st.visited_urls } := by
  rw [scrape_recursive_eq, if_neg (by omega), if_neg hv, scrape_body_eq,
    scrape_step_mock_skip env u _ d (by omega) ha ht]

/-! ## Characterisation of `extract_links_from_html` -/

/-- The per-href skip guard of `extract_links_from_html`, as a
predicate: non-empty, not a fragment, not a `javascript:` URL. -/
def href_usable (href : String) : Bool :=
  !(href = "" || pyStartsWith href "#"
    || pyStartsWith (pyLower href) "javascript:")

/-- The keep filter of `extract_links_from_html`, as a predicate on the
resolved absolute URL: HTTP/HTTPS scheme, and either the live domain as
network location or a mock marker substring anywhere in the URL. -/
def link_kept (x : String) : Bool :=
  ((urlparse x).scheme = "http" || (urlparse x).scheme = "https")
    && ((urlparse x).netloc = target_live_domain
        || containsSub x "mockarticle" || containsSub x "mocktopic")

theorem extract_links_step_eq (b : String) (acc : List String)
    (href : String) :
    extract_links_step b acc href =
      if href_usable href && link_kept (urljoin b href) then
        insertIfAbsent acc (urljoin b href)
      else acc := by
  unfold extract_links_step href_usable link_kept
  by_cases h1 : (decide (href = "") || pyStartsWith href "#"
      || pyStartsWith (pyLower href) "javascript:") = true
  · simp [h1]
  · rw [Bool.not_eq_true] at h1
    simp only [h1, Bool.not_false, Bool.true_and, if_neg (by simp : ¬(false = true))]

theorem mem_insertIfAbsent (acc : List String) (u x : String)
    (h : x ∈ insertIfAbsent acc u) : x ∈ acc ∨ x = u := by
  unfold insertIfAbsent at h
  split at h
  · exact Or.inl h
  · rcases List.mem_append.mp h with h2 | h2
    · exact Or.inl h2
    · exact Or.inr (by simpa using h2)

theorem insertIfAbsent_sub (acc : List String) (u : String) :
    acc ⊆ insertIfAbsent acc u := by
  unfold insertIfAbsent
  split
  · exact fun x hx => hx
  · exact fun x hx => List.mem_append.mpr (Or.inl hx)

theorem mem_insertIfAbsent_self (acc : List String) (u : String) :
    u ∈ insertIfAbsent acc u := by
  unfold insertIfAbsent
  split
  · assumption
  · simp

theorem insertIfAbsent_nodup (acc : List String) (u : String)
    (h : acc.Nodup) : (insertIfAbsent acc u).Nodup := by
  unfold insertIfAbsent
  split
  · exact h
  · rename_i hmem
    simp [List.nodup_append, h, hmem]

theorem foldl_links_nodup (b : String) :
    ∀ hrefs acc, List.Nodup acc →
      (List.foldl (extract_links_step b) acc hrefs).Nodup := by
  intro hrefs
  induction hrefs with
  | nil => intro acc h; exact h
  | cons href rest ih =>
    intro acc h
    rw [List.foldl_cons]
    apply ih
    rw [extract_links_step_eq]
    split
    · exact insertIfAbsent_nodup acc _ h
    · exact h

theorem foldl_links_sub (b : String) :
    ∀ hrefs acc, acc ⊆ List.foldl (extract_links_step b) acc hrefs := by
  intro hrefs
  induction hrefs with
  | nil => intro acc; exact fun x hx => hx
  | cons href rest ih =>
    intro acc
    rw [List.foldl_cons]
    intro x hx
    apply ih
    rw [extract_links_step_eq]
    split
    · exact insertIfAbsent_sub acc _ hx
    · exact hx

theorem mem_foldl_links (b : String) :
    ∀ hrefs acc x, x ∈ List.foldl (extract_links_step b) acc hrefs →
      x ∈ acc ∨ ∃ href ∈ hrefs, href_usable href = true ∧
        link_kept (urljoin b href) = true ∧ x = urljoin b href := by
  intro hrefs
  induction hrefs with
  | nil => intro acc x h; exact Or.inl h
  | cons href rest ih =>
    intro acc x h
    rw [List.foldl_cons] at h
    rcases ih _ x h with hmem | ⟨h2, hh2, hu, hk, hx⟩
    · rw [extract_links_step_eq] at hmem
      by_cases hc : (href_usable href && link_kept (urljoin b href)) = true
      · rw [if_pos hc] at hmem
        rcases mem_insertIfAbsent acc _ x hmem with hmem2 | hx
        · exact Or.inl hmem2
        · rw [Bool.and_eq_true] at hc
          exact Or.inr ⟨href, List.mem_cons_self href rest, hc.1, hc.2, hx⟩
      · rw [if_neg hc] at hmem
        exact Or.inl hmem
    · exact Or.inr ⟨h2, List.mem_cons_of_mem href hh2, hu, hk, hx⟩

theorem foldl_links_complete (b : String) :
    ∀ hrefs acc href, href ∈ hrefs → href_usable href = true →
      link_kept (urljoin b href) = true →
      urljoin b href ∈ List.foldl (extract_links_step b) acc hrefs := by
  intro hrefs
  induction hrefs with
  | nil => intro acc href h; exact absurd h (List.not_mem_nil href)
  | cons h2 rest ih =>
    intro acc href hmem hu hk
    rw [List.foldl_cons]
    rcases List.mem_cons.mp hmem with rfl | hmem2
    · apply foldl_links_sub
      rw [extract_links_step_eq, if_pos (by simp [hu, hk])]
      exact mem_insertIfAbsent_self acc _
    · exact ih _ href hmem2 hu hk

/-- Everything `extract_links_from_html` returns: no duplicates, and
every returned URL is the resolution of a usable anchor href from the
block and passes the scheme/domain-or-marker filter; conversely every
usable, kept href's resolution is returned. -/
theorem extract_links_from_html_spec (nav : NodeForest) (base : String) :
    (extract_links_from_html nav base).Nodup ∧
      (∀ x ∈ extract_links_from_html nav base,
        link_kept x = true ∧
          ∃ a ∈ findAllAnchorsWithHref nav, ∃ href,
            a.getAttr "href" = some href ∧ href_usable href = true ∧
              x = urljoin base href) ∧
      (∀ a ∈ findAllAnchorsWithHref nav, ∀ href,
        a.getAttr "href" = some href → href_usable href = true →
        link_kept (urljoin base href) = true →
        urljoin base href ∈ extract_links_from_html nav base) := by
  unfold extract_links_from_html
  dsimp only []
  refine ⟨foldl_links_nodup base _ [] (List.nodup_nil), ?_, ?_⟩
  · intro x hx
    rcases mem_foldl_links base _ [] x hx with hmem | ⟨href, hh, hu, hk, hx2⟩
    · exact absurd hmem (List.not_mem_nil x)
    · subst hx2
      refine ⟨hk, ?_⟩
      rcases List.mem_filterMap.mp hh with ⟨a, ha, hget⟩
      exact ⟨a, ha, href, hget, hu, rfl⟩
  · intro a ha href hget hu hk
    apply foldl_links_complete base _ [] href ?_ hu hk
    exact List.mem_filterMap.mpr ⟨a, ha, hget⟩

/-! ## The classifier returns CONTENT exactly on the article-body signal -/

theorem directory_checks_false (doc : NodeForest) :
    is_article_page_directory_checks doc = false := by
  unfold is_article_page_directory_checks is_article_page_more_articles
  dsimp only []
  repeat' split
  all_goals rfl

theorem is_article_page_eq_signal (doc : NodeForest) :
    is_article_page doc = article_body_signal doc := by
  unfold is_article_page article_body_signal
  repeat' split
  all_goals simp_all [directory_checks_false]

/-! ## Further transfer lemmas -/

theorem scrape_body_evolves (env : ScrapeEnv) (u : String) (st : ScrapeState)
    (d m : Nat) : StateEvolves st (scrape_body env u st d m) := by
  rw [scrape_body_eq]
  cases hstep : scrape_step env u st d with
  | inl st2 =>
    obtain ⟨hv, hp⟩ := scrape_step_inl env u st d st2 hstep
    refine ⟨by rw [hv]; exact fun x hx => hx, ?_⟩
    rcases hp with hp | ⟨s, hp⟩
    · exact ⟨[], by simp [hp]⟩
    · exact ⟨[mk_url_header u ++ s], hp⟩
  | inr links => exact scrape_children_mono env links st (d + 1) m

theorem scrape_recursive_parts_shape (env : ScrapeEnv) (u : String)
    (st : ScrapeState) (d m : Nat) (p : String)
    (hp : p ∈ (scrape_recursive env u st d m).aggregated_markdown_parts) :
    p ∈ st.aggregated_markdown_parts ∨
      ∃ v r, v ∈ (scrape_recursive env u st d m).visited_urls ∧
        p = mk_url_header v ++ r :=
  scrapeFuel_parts_shape (m + 2) env u st d m _ p (scrape_fuel_spec env u st d m)
    hp

theorem scrape_children_order (env : ScrapeEnv) (u : String)
    (rest : List String) (st : ScrapeState) (d m : Nat) :
    ∃ t1 t2,
      (scrape_recursive env u st d m).aggregated_markdown_parts =
        st.aggregated_markdown_parts ++ t1 ∧
      (scrape_children env (u :: rest) st d m).aggregated_markdown_parts =
        st.aggregated_markdown_parts ++ t1 ++ t2 := by
  obtain ⟨-, t1, h1⟩ := scrape_recursive_mono env u st d m
  obtain ⟨-, t2, h2⟩ :=
    scrape_children_mono env rest (scrape_recursive env u st d m) d m
  refine ⟨t1, t2, h1, ?_⟩
  rw [scrape_children_cons, h2, h1, List.append_assoc]

/-! ## Concrete environments for witnesses -/

/-- An environment whose fetcher always fails and whose renderer always
fails. -/
def envNone : ScrapeEnv := ⟨fun _ => none, fun _ => none⟩

/-- An environment whose fetcher serves the mock article page for every
URL and whose renderer returns the fixed document `"MD"`. -/
def envMock : ScrapeEnv :=
  ⟨fun u => some (MOCK_ARTICLE_HTML u), fun _ => some "MD"⟩

/-- An environment with `envNone`'s renderer but a different fetcher. -/
def envOtherFetch : ScrapeEnv :=
  ⟨fun u => some (MOCK_DIRECTORY_HTML u "a" "b" "c"), fun _ => none⟩

/-! ## Claims -/

/-- Claim C1: for every URL, visited set and aggregated-parts list,
invoking `scrape_recursive` with `current_depth > max_depth` is a no-op:
it returns without modifying the aggregated parts or the visited set. -/
theorem C1_depth_guard_noop (env : ScrapeEnv) (u : String) (st : ScrapeState)
    (d m : Nat) (h : d > m) : scrape_recursive env u st d m = st := by
  rw [scrape_recursive_eq, if_pos h]

/-- Witness for C1 at depth 2 with `max_depth = 1`. -/
theorem C1_witness :
    (2 : Nat) > 1 ∧
      scrape_recursive envNone "https://www.knowva.ebenefits.va.gov/x"
        ⟨["a"], ["p"]⟩ 2 1 = ⟨["a"], ["p"]⟩ :=
  ⟨by decide,
    C1_depth_guard_noop envNone "https://www.knowva.ebenefits.va.gov/x"
      ⟨["a"], ["p"]⟩ 2 1 (by decide)⟩

/-- Claim C2: for every URL already in the visited set, invoking
`scrape_recursive` on it at any depth within the ceiling is a no-op: no
fetch, no append, no state change (idempotent dedup, so cyclic link
graphs terminate). -/
theorem C2_visited_noop (env : ScrapeEnv) (u : String) (st : ScrapeState)
    (d m : Nat) (h1 : u ∈ st.visited_urls) (h2 : d ≤ m) :
    scrape_recursive env u st d m = st := by
  rw [scrape_recursive_eq, if_neg (by omega), if_pos h1]

/-- Witness for C2 on a state that already contains the URL. -/
theorem C2_witness :
    "https://x" ∈ (⟨["https://x"], ["p"]⟩ : ScrapeState).visited_urls ∧
      (0 : Nat) ≤ 2 ∧
      scrape_recursive envNone "https://x" ⟨["https://x"], ["p"]⟩ 0 2 =
        ⟨["https://x"], ["p"]⟩ :=
  ⟨by decide, by decide,
    C2_visited_noop envNone "https://x" ⟨["https://x"], ["p"]⟩ 0 2 (by decide)
      (by decide)⟩

/-- Claim C3: in every visit that passes the depth and dedup guards, the
URL is inserted into the visited set before any fetch or page
processing (`scrape_body`, which performs the fetch, already receives
the state with the URL inserted); consequently the URL is a member of
the visited set from the moment I/O begins, and the visited set only
ever grows during a run. -/
theorem C3_insert_before_fetch :
    (∀ (env : ScrapeEnv) (u : String) (st : ScrapeState) (d m : Nat),
      d ≤ m → u ∉ st.visited_urls →
      scrape_recursive env u st d m =
        scrape_body env u { st with visited_urls := u :: st.visited_urls }
          d m) ∧
    (∀ (env : ScrapeEnv) (u : String) (st : ScrapeState) (d m : Nat),
      ∀ x ∈ st.visited_urls,
        x ∈ (scrape_recursive env u st d m).visited_urls) ∧
    (∀ (env : ScrapeEnv) (u : String) (st : ScrapeState) (d m : Nat),
      d ≤ m → u ∉ st.visited_urls →
      u ∈ (scrape_recursive env u st d m).visited_urls) := by
  refine ⟨?_, ?_, ?_⟩
  · intro env u st d m hdm hv
    rw [scrape_recursive_eq, if_neg (by omega), if_neg hv]
  · intro env u st d m x hx
    exact (scrape_recursive_mono env u st d m).1 x hx
  · intro env u st d m hdm hv
    rw [scrape_recursive_eq, if_neg (by omega), if_neg hv]
    exact (scrape_body_evolves env u _ d m).1 u (List.mem_cons_self u _)

/-- Witness for C3 at a fresh URL at depth 0. -/
theorem C3_witness :
    scrape_recursive envNone "https://x" ⟨[], []⟩ 0 1 =
        scrape_body envNone "https://x" ⟨["https://x"], []⟩ 0 1 ∧
      "https://x" ∈ (scrape_recursive envNone "https://x" ⟨[], []⟩ 0 1).visited_urls :=
  ⟨C3_insert_before_fetch.1 envNone "https://x" ⟨[], []⟩ 0 1 (by decide)
      (by decide),
    C3_insert_before_fetch.2.2 envNone "https://x" ⟨[], []⟩ 0 1 (by decide)
      (by decide)⟩

/-- Claim C4: a document whose first article container holds a body
subtree with at least one non-whitespace text node is classified CONTENT
(`true`) regardless of any navigation markers also present; a document
without that signal but with a non-empty sub-topics list is classified
LISTING (`false`).  The content-shape rule is checked first, so the
first rule that fires decides. -/
theorem C4_classifier_priority :
    (∀ doc, article_body_signal doc = true → is_article_page doc = true) ∧
    (∀ doc, article_body_signal doc = false → sub_topics_signal doc = true →
      is_article_page doc = false) := by
  constructor
  · intro doc h
    rw [is_article_page_eq_signal, h]
  · intro doc h _
    rw [is_article_page_eq_signal, h]

/-- Witness for C4 on the mock article page (which also carries no
navigation markers beyond its view container) and the mock directory
page (non-empty sub-topics list, no article body). -/
theorem C4_witness :
    article_body_signal (MOCK_ARTICLE_HTML "u") = true ∧
      is_article_page (MOCK_ARTICLE_HTML "u") = true ∧
      article_body_signal (MOCK_DIRECTORY_HTML "u" "a" "b" "c") = false ∧
      sub_topics_signal (MOCK_DIRECTORY_HTML "u" "a" "b" "c") = true ∧
      is_article_page (MOCK_DIRECTORY_HTML "u" "a" "b" "c") = false :=
  ⟨by decide, C4_classifier_priority.1 (MOCK_ARTICLE_HTML "u") (by decide),
    by decide, by decide,
    C4_classifier_priority.2 (MOCK_DIRECTORY_HTML "u" "a" "b" "c") (by decide)
      (by decide)⟩

/-- Claim C5: the classifier is total — it is a function returning a
page kind on every parsed document, including the empty one — and every
document on which none of the three positive rules fires is classified
LISTING (`false`), the default outcome, never an error. -/
theorem C5_default_listing (doc : NodeForest)
    (h1 : article_body_signal doc = false)
    (h2 : sub_topics_signal doc = false)
    (h3 : more_articles_signal doc = false) :
    is_article_page doc = false := by
  rw [is_article_page_eq_signal, h1]

/-- Witness for C5 on the empty document. -/
theorem C5_witness :
    article_body_signal .nil = false ∧ sub_topics_signal .nil = false ∧
      more_articles_signal .nil = false ∧ is_article_page .nil = false :=
  ⟨by decide, by decide, by decide,
    C5_default_listing .nil (by decide) (by decide) (by decide)⟩

/-- Counterexample to claim C6 as stated: the filter does not restrict
the returned links to an allow-list of origins.  The crawl's synthetic
fixture URLs (the three dummy templates) all have the crawl target's
domain as their origin — so the claimed allow-list of authorities is
exactly the target domain — yet an anchor to
`https://other.org/mockarticle` is returned, although its authority is
`other.org`: the code tests for the substrings `mockarticle`/`mocktopic`
anywhere in the URL, not for an origin. -/
theorem C6_counterexample :
    extract_links_from_html
        (.one (.el "a" [("href", "https://other.org/mockarticle")] []))
        "https://www.knowva.ebenefits.va.gov/portal" =
      ["https://other.org/mockarticle"] ∧
    (urlparse "https://other.org/mockarticle").netloc ≠ target_live_domain ∧
    (urlparse (DUMMY_ARTICLE_URL_1 0)).netloc = target_live_domain ∧
    (urlparse (DUMMY_DIRECTORY_URL_2 0)).netloc = target_live_domain ∧
    (urlparse (DUMMY_ARTICLE_URL_3 0)).netloc = target_live_domain := by
  refine ⟨by decide, by decide, ?_, ?_, ?_⟩
  · rw [dummy1_eq]; rw [urlparse_knowva]
  · rw [dummy2_eq]; rw [urlparse_knowva]
  · rw [dummy3_eq]; rw [urlparse_knowva]

/-- Claim C6 as amended: for every HTML fragment and base URL,
`extract_links_from_html` returns, without duplicates, exactly the
resolutions against the base URL of the anchors whose href is non-empty,
not a fragment and not a `javascript:` URL, restricted to absolute URLs
whose scheme is HTTP or HTTPS and which either have the crawl target's
domain as network location or contain `mockarticle` or `mocktopic` as a
substring anywhere in the URL (the code's recognition of synthetic/test
fixture links); no other URLs are returned. -/
theorem C6_link_extraction (nav : NodeForest) (base : String) :
    (extract_links_from_html nav base).Nodup ∧
      (∀ x ∈ extract_links_from_html nav base,
        link_kept x = true ∧
          ∃ a ∈ findAllAnchorsWithHref nav, ∃ href,
            a.getAttr "href" = some href ∧ href_usable href = true ∧
              x = urljoin base href) ∧
      (∀ a ∈ findAllAnchorsWithHref nav, ∀ href,
        a.getAttr "href" = some href → href_usable href = true →
        link_kept (urljoin base href) = true →
        urljoin base href ∈ extract_links_from_html nav base) :=
  extract_links_from_html_spec nav base

/-- Witness for C6 on the specification's example fragment: anchors
`#`, `javascript:x`, `https://other.org/a` and (twice) a target-domain
link; only the target-domain link is returned, once. -/
theorem C6_witness :
    (extract_links_from_html
        (.one (.el "ul" []
          [.el "li" [] [.el "a" [("href", "#")] []],
           .el "li" [] [.el "a" [("href", "javascript:x")] []],
           .el "li" [] [.el "a" [("href", "https://other.org/a")] []],
           .el "li" []
             [.el "a" [("href", "https://www.knowva.ebenefits.va.gov/b")] []],
           .el "li" []
             [.el "a" [("href", "https://www.knowva.ebenefits.va.gov/b")] []]]))
        "https://www.knowva.ebenefits.va.gov/start").Nodup ∧
      (link_kept "https://www.knowva.ebenefits.va.gov/b" = true ∧
        ∃ a ∈ findAllAnchorsWithHref
          (.one (.el "ul" []
            [.el "li" [] [.el "a" [("href", "#")] []],
             .el "li" [] [.el "a" [("href", "javascript:x")] []],
             .el "li" [] [.el "a" [("href", "https://other.org/a")] []],
             .el "li" []
               [.el "a" [("href", "https://www.knowva.ebenefits.va.gov/b")] []],
             .el "li" []
               [.el "a" [("href", "https://www.knowva.ebenefits.va.gov/b")] []]])),
          ∃ href, a.getAttr "href" = some href ∧ href_usable href = true ∧
            "https://www.knowva.ebenefits.va.gov/b" =
              urljoin "https://www.knowva.ebenefits.va.gov/start" href) := by
  have h := C6_link_extraction
    (.one (.el "ul" []
      [.el "li" [] [.el "a" [("href", "#")] []],
       .el "li" [] [.el "a" [("href", "javascript:x")] []],
       .el "li" [] [.el "a" [("href", "https://other.org/a")] []],
       .el "li" []
         [.el "a" [("href", "https://www.knowva.ebenefits.va.gov/b")] []],
       .el "li" []
         [.el "a" [("href", "https://www.knowva.ebenefits.va.gov/b")] []]]))
    "https://www.knowva.ebenefits.va.gov/start"
  exact ⟨h.1, h.2.1 "https://www.knowva.ebenefits.va.gov/b" (by decide)⟩

/-- Counterexample to claim C7 as stated: when the depth-0 (root) fetch
fails, the run does not abort with a non-zero exit — `main` logs the
failure and finishes normally with exit status 0.  (No output file is
produced, as the claim also says; that part holds.) -/
theorem C7_counterexample :
    envNone.fetch "https://www.knowva.ebenefits.va.gov/portal" = none ∧
      (run_main envNone "https://www.knowva.ebenefits.va.gov/portal" 2
        "out.md").exit_code = 0 ∧
      (run_main envNone "https://www.knowva.ebenefits.va.gov/portal" 2
        "out.md").output_file = none := by
  have h := scrape_fuel_spec envNone "https://www.knowva.ebenefits.va.gov/portal"
    ⟨[], []⟩ 0 2
  rw [show scrapeFuel envNone (2 + 2)
      "https://www.knowva.ebenefits.va.gov/portal" ⟨[], []⟩ 0 2 =
    some ⟨["https://www.knowva.ebenefits.va.gov/portal"], []⟩ from by decide]
    at h
  injection h with h
  unfold run_main
  rw [← h]
  exact ⟨rfl, by decide, by decide⟩

/-- Claim C7 as amended: if the depth-0 fetch fails, the crawl aggregates
nothing and no output file is produced, but the run completes normally —
the process exit status is 0, as it is on every run (`main` neither
calls `sys.exit` nor re-raises); failures beyond depth 0 likewise only
skip their own branch (the loop over sibling links continues with the
state the failed branch left). -/
theorem C7_root_failure :
    (∀ (env : ScrapeEnv) (url : String) (m : Nat) (fname : String),
      env.fetch url = none →
      run_main env url m fname = ⟨[], none, none, 0⟩) ∧
    (∀ (env : ScrapeEnv) (url : String) (m : Nat) (fname : String),
      (run_main env url m fname).exit_code = 0) := by
  constructor
  · intro env url m fname hf
    have hs : scrape_recursive env url ⟨[], []⟩ 0 m =
        ⟨[url], []⟩ := by
      rw [scrape_recursive_eq, if_neg (by omega),
        if_neg (List.not_mem_nil url), scrape_body_eq]
      rw [show scrape_step env url ⟨[url], []⟩ 0 = .inl ⟨[url], []⟩ from by
        unfold scrape_step page_html_for
        rw [if_pos rfl, hf]]
    unfold run_main
    rw [hs]
    rfl
  · intro env url m fname
    unfold run_main
    dsimp only []
    split
    · rfl
    · rfl

/-- Witness for C7 with the always-failing fetcher. -/
theorem C7_witness :
    run_main envNone "https://u" 3 "o.md" = ⟨[], none, none, 0⟩ :=
  C7_root_failure.1 envNone "https://u" 3 "o.md" rfl

/-- Claim C8: the aggregated output is the parts joined with the one
fixed separator; parts are only ever appended (never reordered or
removed), every appended part is preceded by a provenance header naming
a visited source URL, and in the children loop every part contributed by
a link's subtree is appended before any part of a later sibling — the
depth-first pre-order.  A content page appends during its own visit, so
its part precedes all later siblings' parts. -/
theorem C8_output_order :
    (∀ (env : ScrapeEnv) (url : String) (m : Nat) (fname : String),
      (run_main env url m fname).aggregated_markdown_parts ≠ [] →
      (run_main env url m fname).final_markdown =
        some (joinParts SEPARATOR
          (run_main env url m fname).aggregated_markdown_parts)) ∧
    (∀ (env : ScrapeEnv) (u : String) (st : ScrapeState) (d m : Nat),
      ∃ t, (scrape_recursive env u st d m).aggregated_markdown_parts =
        st.aggregated_markdown_parts ++ t) ∧
    (∀ (env : ScrapeEnv) (u : String) (st : ScrapeState) (d m : Nat)
      (p : String),
      p ∈ (scrape_recursive env u st d m).aggregated_markdown_parts →
      p ∈ st.aggregated_markdown_parts ∨
        ∃ v r, v ∈ (scrape_recursive env u st d m).visited_urls ∧
          p = mk_url_header v ++ r) ∧
    (∀ (env : ScrapeEnv) (u : String) (rest : List String) (st : ScrapeState)
      (d m : Nat),
      ∃ t1 t2,
        (scrape_recursive env u st d m).aggregated_markdown_parts =
          st.aggregated_markdown_parts ++ t1 ∧
        (scrape_children env (u :: rest) st d m).aggregated_markdown_parts =
          st.aggregated_markdown_parts ++ t1 ++ t2) := by
  refine ⟨?_, ?_, ?_, ?_⟩
  · intro env url m fname h
    unfold run_main at h ⊢
    dsimp only [] at h ⊢
    by_cases he : (scrape_recursive env url ⟨[], []⟩ 0
        m).aggregated_markdown_parts.isEmpty
    · rw [if_pos he] at h
      exact absurd (List.isEmpty_iff.mp he) h
    · rw [if_neg he]
  · intro env u st d m
    exact (scrape_recursive_mono env u st d m).2
  · intro env u st d m p hp
    exact scrape_recursive_parts_shape env u st d m p hp
  · intro env u rest st d m
    exact scrape_children_order env u rest st d m

/-- Witness for C8 with a fetcher serving an article page: one part is
aggregated, the output is the join, and the part carries its provenance
header. -/
theorem C8_witness :
    (run_main envMock "https://a" 2 "o.md").final_markdown =
        some (joinParts SEPARATOR
          (run_main envMock "https://a" 2 "o.md").aggregated_markdown_parts) ∧
      mk_url_header "https://a" ++ "MD" ∈
        (scrape_recursive envMock "https://a" ⟨[], []⟩ 0
          2).aggregated_markdown_parts ∧
      (mk_url_header "https://a" ++ "MD" ∈
          (⟨[], []⟩ : ScrapeState).aggregated_markdown_parts ∨
        ∃ v r, v ∈ (scrape_recursive envMock "https://a" ⟨[], []⟩ 0
            2).visited_urls ∧
          mk_url_header "https://a" ++ "MD" = mk_url_header v ++ r) := by
  have h := scrape_fuel_spec envMock "https://a" ⟨[], []⟩ 0 2
  rw [show scrapeFuel envMock (2 + 2) "https://a" ⟨[], []⟩ 0 2 =
    some ⟨["https://a"], [mk_url_header "https://a" ++ "MD"]⟩ from by decide]
    at h
  injection h with h
  refine ⟨C8_output_order.1 envMock "https://a" 2 "o.md" ?_, ?_, ?_⟩
  · unfold run_main
    rw [← h]
    decide
  · rw [← h]; decide
  · exact C8_output_order.2.2.1 envMock "https://a" ⟨[], []⟩ 0 2
      (mk_url_header "https://a" ++ "MD") (by rw [← h]; decide)

/-- Claim C9: the crawl terminates on every input, cyclic link graphs
included: a fuelled variant of the recursion whose fuel bounds the
recursion depth computes the same result with fuel `max_depth + 2` —
each recursive call increases the depth by exactly 1, a call with
`current_depth > max_depth` returns immediately, and the visited-set
guard prevents revisiting, so the recursion depth never exceeds the
ceiling. -/
theorem C9_termination (env : ScrapeEnv) (u : String) (st : ScrapeState)
    (d m : Nat) :
    scrapeFuel env (m + 2) u st d m =
      some (scrape_recursive env u st d m) :=
  scrape_fuel_spec env u st d m

/-- Claim C10: beyond depth 0 no live fetch is performed — the crawl's
result does not depend on the fetcher at all from depth 1 on — and the
page HTML is synthesized from a mock template selected by URL substring
on the lower-cased URL: an article marker (`/article/` or `mockarticle`)
yields the mock article page; otherwise a topic marker (`/topic/` or
`mocktopic`) yields the mock directory page, whose three fixed
depth-tagged child links are then visited at the next depth; a URL with
neither marker is skipped — no children visited, nothing appended — yet
is recorded in the visited set, and any later visit of a recorded URL is
a no-op at every depth, so it is never retried during the run. -/
theorem C10_mock_beyond_depth0 :
    (∀ (env1 env2 : ScrapeEnv) (u : String) (st : ScrapeState) (d m : Nat),
      env1.toMd = env2.toMd → 1 ≤ d →
      scrape_recursive env1 u st d m = scrape_recursive env2 u st d m) ∧
    (∀ (env : ScrapeEnv) (u : String) (d : Nat), 1 ≤ d →
      page_html_for env u d =
        if article_marker u then some (MOCK_ARTICLE_HTML u, true)
        else if topic_marker u then
          some (MOCK_DIRECTORY_HTML u (DUMMY_ARTICLE_URL_1 d)
            (DUMMY_DIRECTORY_URL_2 d) (DUMMY_ARTICLE_URL_3 d), true)
        else none) ∧
    (∀ (env : ScrapeEnv) (u : String) (st : ScrapeState) (d m : Nat),
      1 ≤ d → d ≤ m → u ∉ st.visited_urls → article_marker u = true →
      scrape_recursive env u st d m =
        process_article env u { st with visited_urls := u :: st.visited_urls }
          (MOCK_ARTICLE_HTML u)) ∧
    (∀ (env : ScrapeEnv) (u : String) (st : ScrapeState) (d m : Nat),
      1 ≤ d → d ≤ m → u ∉ st.visited_urls → article_marker u = false →
      topic_marker u = true →
      scrape_recursive env u st d m =
        scrape_children env
          [DUMMY_ARTICLE_URL_1 d, DUMMY_DIRECTORY_URL_2 d,
            DUMMY_ARTICLE_URL_3 d]
          { st with visited_urls := u :: st.visited_urls } (d + 1) m) ∧
    (∀ (env : ScrapeEnv) (u : String) (st : ScrapeState) (d m : Nat),
      1 ≤ d → d ≤ m → u ∉ st.visited_urls → article_marker u = false →
      topic_marker u = false →
      scrape_recursive env u st d m =
        { st with visited_urls := u :: st.visited_urls }) ∧
    (∀ (env : ScrapeEnv) (u : String) (st : ScrapeState) (d m : Nat),
      u ∈ st.visited_urls → scrape_recursive env u st d m = st) := by
  refine ⟨?_, ?_, ?_, ?_, ?_, ?_⟩
  · intro env1 env2 u st d m hmd hd
    exact scrape_recursive_fetch_irrel env1 env2 u st d m hmd hd
  · intro env u d hd
    exact page_html_for_pos env u d (by omega)
  · intro env u st d m hd hdm hv ha
    exact scrape_recursive_mock_article env u st d m hd hdm hv ha
  · intro env u st d m hd hdm hv ha ht
    exact scrape_recursive_mock_topic env u st d m hd hdm hv ha ht
  · intro env u st d m hd hdm hv ha ht
    exact scrape_recursive_mock_skip env u st d m hd hdm hv ha ht
  · intro env u st d m hvis
    rw [scrape_recursive_eq]
    by_cases hdm : d > m
    · rw [if_pos hdm]
    · rw [if_neg hdm, if_pos hvis]

/-- Witness for C10: fetcher-independence at depth 1 between two
environments differing only in their fetchers; a marker-free URL is
skipped but recorded; a recorded URL is not retried. -/
theorem C10_witness :
    scrape_recursive envNone "https://a.com/none" ⟨[], []⟩ 1 2 =
        scrape_recursive envOtherFetch "https://a.com/none" ⟨[], []⟩ 1 2 ∧
      scrape_recursive envNone "https://a.com/none" ⟨[], []⟩ 1 2 =
        ⟨["https://a.com/none"], []⟩ ∧
      scrape_recursive envNone "https://a.com/none"
          ⟨["https://a.com/none"], []⟩ 1 2 =
        ⟨["https://a.com/none"], []⟩ :=
  ⟨C10_mock_beyond_depth0.1 envNone envOtherFetch "https://a.com/none"
      ⟨[], []⟩ 1 2 rfl (by decide),
    C10_mock_beyond_depth0.2.2.2.2.1 envNone "https://a.com/none" ⟨[], []⟩ 1 2
      (by decide) (by decide) (by decide) (by decide) (by decide),
    C10_mock_beyond_depth0.2.2.2.2.2 envNone "https://a.com/none"
      ⟨["https://a.com/none"], []⟩ 1 2 (by decide)⟩
